import Mathlib

/-!
Verification of the Quizzy backend's AI quiz-generation / normalization
pipeline and history-revert subsystem, as a shallow embedding of
`backend/app/services/ai.py`, `backend/app/routes/quizzes.py` and
`backend/app/services/question.py`.

Python values that flow through the pipeline (parsed JSON payloads) are
modelled by the inductive `Json`; Python dicts are association lists with
unique keys and insertion order (`PyDict`), with `dictGet?`, `dictSet`,
`dictSetdefault` mirroring `d[k]`, `d[k] = v`, `d.setdefault(k, v)`.
Python exceptions raised by the embedded code are modelled by
`Except String`; a total Python function becomes a total Lean function.
JSON numbers are modelled exactly as rationals (mantissa times a power of
ten), so integer round-trips are exact; float rendering subtleties of
CPython (`repr` of floats) are out of scope and only approximated in
`pyNumRepr`, which no claim depends on.
-/

namespace Quizzy

/-- A parsed JSON value (the dynamic "Any" that `json.loads` produces).
Objects keep insertion order and have unique keys, as Python dicts do. -/
inductive Json where
  | null
  | bool (b : Bool)
  | num (q : ℚ)
  | str (s : String)
  | arr (elems : List Json)
  | obj (members : List (String × Json))

instance : Inhabited Json := ⟨Json.null⟩

/-- A Python dict with string keys, as produced by `json.loads` and handed
to `_validate_question`. -/
abbrev PyDict := List (String × Json)

/-- Lookup `d.get(k)` / `k in d`. -/
def dictGet? (d : PyDict) (k : String) : Option Json :=
  match d with
  | [] => none
  | (k', v) :: rest => if k' = k then some v else dictGet? rest k

/-- Assignment `d[k] = v`: replaces in place if the key exists (keeping its
position, as CPython dicts do), otherwise appends. -/
def dictSet (d : PyDict) (k : String) (v : Json) : PyDict :=
  match d with
  | [] => [(k, v)]
  | (k', v') :: rest => if k' = k then (k', v) :: rest else (k', v') :: dictSet rest k v

/-- Python `d.setdefault(k, v)`: inserts `v` only when `k` is absent. -/
def dictSetdefault (d : PyDict) (k : String) (v : Json) : PyDict :=
  match dictGet? d k with
  | some _ => d
  | none => d ++ [(k, v)]

/-- Truthiness of a parsed JSON value under Python semantics: `None`,
`False`, `0`, the empty string, the empty list and the empty dict are
falsy, everything else truthy. -/
def pyTruthy : Json → Bool
  | .null => false
  | .bool b => b
  | .num q => q != 0
  | .str s => s != ""
  | .arr l => !l.isEmpty
  | .obj m => !m.isEmpty

/-- Python `str.lower()` (ASCII case mapping suffices for this codebase). -/
def pyLower (s : String) : String := String.mk (s.toList.map Char.toLower)

/-- Python `str.upper()` (ASCII case mapping). -/
def pyUpper (s : String) : String := String.mk (s.toList.map Char.toUpper)

/-- Left brace character, kept symbolic. -/
def lbrace : Char := Char.ofNat 123

/-- Right brace character, kept symbolic. -/
def rbrace : Char := Char.ofNat 125

/-- Backquote character, kept symbolic. -/
def btick : Char := Char.ofNat 96

/-! ## A model of Python `json.loads`

The pipeline never inspects parse errors, only success/failure, so the model
returns `Option Json`.  Faithful to CPython's strict decoder on the inputs
that matter here: whole-input parse (trailing garbage rejected), the four
JSON whitespace characters, string escapes including `\uXXXX`, raw control
characters rejected inside strings, leading-zero rule for numbers, duplicate
object keys resolved last-wins in the original slot.  Not modelled: the
`NaN`/`Infinity` extension and recursion-depth limits (the fuel here is
proportional to input length, so any input CPython can parse within its
default recursion limit parses identically). -/

/-- JSON whitespace accepted by `json.loads` between tokens. -/
def isJsonWs (c : Char) : Bool := c = ' ' || c = '\t' || c = '\n' || c = '\r'

/-- Drop leading JSON whitespace. -/
def skipJsonWs : List Char → List Char
  | c :: cs => if isJsonWs c then skipJsonWs cs else c :: cs
  | [] => []

/-- Decimal digit test. -/
def isDig (c : Char) : Bool := '0' ≤ c && c ≤ '9'

/-- Value of a digit run, most significant first, with an accumulator. -/
def digitsToNat (acc : Nat) : List Char → Nat
  | [] => acc
  | c :: cs => digitsToNat (10 * acc + (c.toNat - 48)) cs

/-- Value of one hex digit, if any (code-point arithmetic: digits sit at
48-57, lowercase letters at 97-102, uppercase at 65-70). -/
def hexDigVal (c : Char) : Option Nat :=
  let n := c.toNat
  if 48 ≤ n ∧ n ≤ 57 then some (n - 48)
  else if 97 ≤ n ∧ n ≤ 102 then some (n - 87)
  else if 65 ≤ n ∧ n ≤ 70 then some (n - 55)
  else none

/-- The table of simple escapes accepted inside JSON strings: escape
letter paired with the denoted character. -/
def escapeTable : List (Char × Char) :=
  [('"', '"'), ('\\', '\\'), ('/', '/'), ('b', Char.ofNat 8), ('f', Char.ofNat 12),
   ('n', '\n'), ('r', '\r'), ('t', '\t')]

/-- Simple escapes accepted inside JSON strings, via the table. -/
def escapeChar (e : Char) : Option Char :=
  (escapeTable.find? (fun p => p.1 = e)).map (fun p => p.2)

/-- Body of a JSON string after the opening quote.  CPython's strict decoder
rejects unescaped control characters, which this mirrors. -/
def loadStringBody (acc : List Char) : List Char → Option (String × List Char)
  | '"' :: rest => some (String.mk acc.reverse, rest)
  | '\\' :: 'u' :: h1 :: h2 :: h3 :: h4 :: rest =>
    match hexDigVal h1, hexDigVal h2, hexDigVal h3, hexDigVal h4 with
    | some a, some b, some c, some d =>
      loadStringBody (Char.ofNat (((a * 16 + b) * 16 + c) * 16 + d) :: acc) rest
    | _, _, _, _ => none
  | '\\' :: e :: rest =>
    match escapeChar e with
    | some c => loadStringBody (c :: acc) rest
    | none => none
  | c :: rest => if c.toNat < 32 then none else loadStringBody (c :: acc) rest
  | [] => none

/-- Assemble the exact rational denoted by sign, integer digits, fraction
digits and decimal exponent: `± (ip ++ fp) * 10 ^ (ex - |fp|)`.  Stated
with `mkRat` and integer powers so that it evaluates definitionally. -/
def assembleNumber (neg : Bool) (ip fp : List Char) (ex : Int) : ℚ :=
  let mag : Int := digitsToNat 0 (ip ++ fp)
  let m : Int := if neg then -mag else mag
  let sc : Int := ex - fp.length
  if 0 ≤ sc then ((m * 10 ^ sc.toNat : Int) : ℚ) else mkRat m (10 ^ (-sc).toNat)

/-- The optional exponent suffix: its signed value and the rest, or `none`
when an `e`/`E` is present but not followed by digits. -/
def readExponent (cs : List Char) : Option (Int × List Char) :=
  match cs with
  | e :: r =>
    if e = 'e' ∨ e = 'E' then
      let sgnNeg := r.headD ' ' = '-'
      let r1 := if r.headD ' ' = '+' ∨ r.headD ' ' = '-' then r.tail else r
      let eds := r1.takeWhile isDig
      if eds = [] then none
      else
        let mag : Int := digitsToNat 0 eds
        some (if sgnNeg then -mag else mag, r1.dropWhile isDig)
    else some (0, cs)
  | [] => some (0, [])

/-- A JSON number starting at the current position: optional minus sign,
integer part without leading zeros, optional fraction, optional exponent. -/
def loadNumber (cs : List Char) : Option (ℚ × List Char) :=
  let neg := cs.headD ' ' = '-'
  let cs1 := if neg then cs.tail else cs
  let ip := cs1.takeWhile isDig
  let cs2 := cs1.dropWhile isDig
  if ip = [] then none
  else if ip.headD 'x' = '0' ∧ ip.length ≠ 1 then none
  else
    let dotted := cs2.headD ' ' = '.'
    let afterDot := if dotted then cs2.tail else cs2
    let fp := if dotted then afterDot.takeWhile isDig else []
    let cs3 := if dotted then afterDot.dropWhile isDig else cs2
    if dotted ∧ fp = [] then none
    else
      match readExponent cs3 with
      | some (ex, cs4) => some (assembleNumber neg ip fp ex, cs4)
      | none => none

mutual

/-- One JSON value starting at the current position (after skipping
whitespace), mirroring `json.loads`'s grammar.  `fuel` only bounds nesting
and list length; callers supply enough for the whole input. -/
def loadValue : Nat → List Char → Option (Json × List Char)
  | 0, _ => none
  | fuel + 1, cs =>
    match skipJsonWs cs with
    | 'n' :: 'u' :: 'l' :: 'l' :: r => some (.null, r)
    | 't' :: 'r' :: 'u' :: 'e' :: r => some (.bool true, r)
    | 'f' :: 'a' :: 'l' :: 's' :: 'e' :: r => some (.bool false, r)
    | '"' :: r =>
      match loadStringBody [] r with
      | some (s, r') => some (.str s, r')
      | none => none
    | '[' :: r =>
      match skipJsonWs r with
      | ']' :: r' => some (.arr [], r')
      | r' =>
        match loadItems fuel r' with
        | some (es, r'') => some (.arr es, r'')
        | none => none
    | c :: r =>
      if c = lbrace then
        match skipJsonWs r with
        | c' :: r' =>
          if c' = rbrace then some (.obj [], r')
          else
            match loadMembers fuel (c' :: r') with
            | some (ms, r'') => some (.obj (ms.foldl (fun d kv => dictSet d kv.1 kv.2) []), r'')
            | none => none
        | [] => none
      else if c = '-' || isDig c then
        match loadNumber (c :: r) with
        | some (q, r') => some (.num q, r')
        | none => none
      else none
    | [] => none

/-- One-or-more comma-separated array items followed by `]`. -/
def loadItems : Nat → List Char → Option (List Json × List Char)
  | 0, _ => none
  | fuel + 1, cs =>
    match loadValue fuel cs with
    | none => none
    | some (v, r) =>
      match skipJsonWs r with
      | ',' :: r' =>
        match loadItems fuel r' with
        | some (vs, r'') => some (v :: vs, r'')
        | none => none
      | ']' :: r' => some ([v], r')
      | _ => none

/-- One-or-more comma-separated object members followed by a closing brace,
in source order; the caller folds them into a dict with `dictSet`, so
duplicate keys behave as consecutive Python dict assignments. -/
def loadMembers : Nat → List Char → Option (PyDict × List Char)
  | 0, _ => none
  | fuel + 1, cs =>
    match skipJsonWs cs with
    | '"' :: r =>
      match loadStringBody [] r with
      | none => none
      | some (key, r1) =>
        match skipJsonWs r1 with
        | ':' :: r2 =>
          match loadValue fuel r2 with
          | none => none
          | some (v, r3) =>
            match skipJsonWs r3 with
            | ',' :: r4 =>
              match loadMembers fuel r4 with
              | some (ms, r5) => some ((key, v) :: ms, r5)
              | none => none
            | c :: r4 =>
              if c = rbrace then some ([(key, v)], r4) else none
            | [] => none
        | _ => none
    | _ => none

end

/-- Model of `json.loads(s)`: parse one value, then require only whitespace
to remain, as the strict CPython decoder does.  `none` stands for a raised
`json.JSONDecodeError`. -/
def pyJsonParse (s : String) : Option Json :=
  let cs := s.toList
  match loadValue (2 * cs.length + 8) cs with
  | some (j, rest) => if (skipJsonWs rest).isEmpty then some j else none
  | none => none

/-! ## Python `str` / `repr` of parsed values

Needed because `_validate_question` stringifies non-dict answer entries with
`str(answer)`. -/

/-- Rendering of a number for `pyRepr`. -/
def pyNumRepr (q : ℚ) : String :=
  if q.den = 1 then toString q.num else toString q.num ++ "/" ++ toString q.den

mutual

/-- Python `repr` of a parsed JSON value.  String quoting uses a plain
single-quote wrapper and non-integer rationals print as fractions; both are
approximations that no claim exercises. -/
def pyRepr : Json → String
  | .null => "None"
  | .bool b => if b then "True" else "False"
  | .num q => pyNumRepr q
  | .str s => "'" ++ s ++ "'"
  | .arr l => "[" ++ pyReprItems l ++ "]"
  | .obj m => String.mk [lbrace] ++ pyReprMembers m ++ String.mk [rbrace]

/-- Comma-separated `repr`s of list items. -/
def pyReprItems : List Json → String
  | [] => ""
  | [x] => pyRepr x
  | x :: xs => pyRepr x ++ ", " ++ pyReprItems xs

/-- Comma-separated `repr`s of dict members. -/
def pyReprMembers : PyDict → String
  | [] => ""
  | [(k, v)] => "'" ++ k ++ "': " ++ pyRepr v
  | (k, v) :: ms => "'" ++ k ++ "': " ++ pyRepr v ++ ", " ++ pyReprMembers ms

end

/-- Python `str(x)` for a parsed JSON value: the string itself for strings,
`repr` otherwise (which is what CPython's `str` does on these types). -/
def pyStr : Json → String
  | .str s => s
  | j => pyRepr j

/-! ## The response parser `_extract_and_parse_json` (ai.py 410-451)

Four strategies, first success wins: direct `json.loads`; the captures of
`re.findall` over fenced code blocks; the matches of `re.findall` over
greedy bracket-delimited substrings; `json.loads` of the
newline-stripped, stripped text.  All failures are swallowed and `[]` is
returned when everything fails. -/

/-- The character class `\s` of Python's `re` module (ASCII range). -/
def isReWs (c : Char) : Bool :=
  c = ' ' || c = '\t' || c = '\n' || c = '\r' || c = Char.ofNat 11 || c = Char.ofNat 12

/-- Split at the first triple-backquote fence: the text before it and the
rest after it, or `none` when no fence occurs. -/
def splitAtFence (acc : List Char) : List Char → Option (List Char × List Char)
  | [] => none
  | c :: cs =>
    if c = btick then
      match cs with
      | c2 :: c3 :: rest =>
        if c2 = btick && c3 = btick then some (acc.reverse, rest)
        else splitAtFence (c :: acc) cs
      | _ => none
    else splitAtFence (c :: acc) cs

/-- Strip a literal `json` tag, mirroring the regex group `(?:json)?` right
after the opening fence. -/
def dropJsonTag (cs : List Char) : List Char :=
  match cs with
  | 'j' :: 's' :: 'o' :: 'n' :: rest => rest
  | _ => cs

/-- Successive captures of `re.findall` with the fenced-code-block pattern
of ai.py line 425: between each opening and closing fence, after the
optional `json` tag and the greedy `\s*` run, lazily up to the closing
fence; scanning resumes after each full match. -/
def fencedAux : Nat → List Char → List String
  | 0, _ => []
  | fuel + 1, cs =>
    match splitAtFence [] cs with
    | none => []
    | some (_, afterOpen) =>
      let body := (dropJsonTag afterOpen).dropWhile isReWs
      match splitAtFence [] body with
      | none => []
      | some (inner, rest) => String.mk inner :: fencedAux fuel rest

/-- Captures of the fenced-block regex over a string. -/
def fencedBlocks (s : String) : List String := fencedAux (s.length + 1) s.toList

/-- Index of the last occurrence of the two-character sequence `a b`. -/
def lastIndexOfPair (a b : Char) : List Char → Option Nat
  | c :: d :: cs =>
    match lastIndexOfPair a b (d :: cs) with
    | some i => some (i + 1)
    | none => if c = a && d = b then some 0 else none
  | _ => none

/-- Index of the last occurrence of the character `a`. -/
def lastIndexOfChar (a : Char) : List Char → Option Nat
  | [] => none
  | c :: cs =>
    match lastIndexOfChar a cs with
    | some i => some (i + 1)
    | none => if c = a then some 0 else none

/-- Successive matches of `re.findall` with the bracket pattern of ai.py
line 435: at each leftmost position, the first alternative that matches
wins, each alternative being greedy (its closing delimiter is the last
occurrence); scanning resumes after each match. -/
def bracketAux : Nat → List Char → List String
  | 0, _ => []
  | _ + 1, [] => []
  | fuel + 1, c :: cs =>
    if c = '[' then
      match cs with
      | c2 :: cs2 =>
        if c2 = lbrace then
          match lastIndexOfPair rbrace ']' cs2 with
          | some i =>
            String.mk (c :: c2 :: cs2.take (i + 2)) :: bracketAux fuel (cs2.drop (i + 2))
          | none =>
            match lastIndexOfChar ']' cs with
            | some j => String.mk (c :: cs.take (j + 1)) :: bracketAux fuel (cs.drop (j + 1))
            | none => bracketAux fuel cs
        else
          match lastIndexOfChar ']' cs with
          | some j => String.mk (c :: cs.take (j + 1)) :: bracketAux fuel (cs.drop (j + 1))
          | none => bracketAux fuel cs
      | [] => []
    else if c = lbrace then
      match lastIndexOfChar rbrace cs with
      | some j => String.mk (c :: cs.take (j + 1)) :: bracketAux fuel (cs.drop (j + 1))
      | none => bracketAux fuel cs
    else bracketAux fuel cs

/-- Matches of the bracket regex over a string. -/
def bracketMatches (s : String) : List String := bracketAux (s.length + 1) s.toList

/-- Whitespace stripped by Python `str.strip()` (ASCII range). -/
def isPyStripWs (c : Char) : Bool :=
  c = ' ' || c = '\t' || c = '\n' || c = '\r' || c = Char.ofNat 11 || c = Char.ofNat 12

/-- Python `s.strip()`. -/
def pyStrip (s : String) : String :=
  String.mk (((s.toList.dropWhile isPyStripWs).reverse.dropWhile isPyStripWs).reverse)

/-- Method 4's cleaning: `response.strip().replace('\n', '').replace('\r', '')`. -/
def cleanedText (s : String) : String :=
  String.mk ((pyStrip s).toList.filter (fun c => !(c = '\n' || c = '\r')))

/-- Attempt `json.loads` on each candidate in order, first success wins;
every failure is caught and the next candidate tried. -/
def tryParseEach : List String → Option Json
  | [] => none
  | s :: rest =>
    match pyJsonParse s with
    | some j => some j
    | none => tryParseEach rest

/-- Model of `AIService._extract_and_parse_json` (ai.py 410-451). -/
def extract_and_parse_json (response : String) : Json :=
  if response = "" then .arr []
  else
    match pyJsonParse response with
    | some j => j
    | none =>
      match tryParseEach (fencedBlocks response) with
      | some j => j
      | none =>
        match tryParseEach (bracketMatches response) with
        | some j => j
        | none =>
          match pyJsonParse (cleanedText response) with
          | some j => j
          | none => .arr []

/-- Strategy 1 of the response parser: direct `json.loads`. -/
def strategyDirect (r : String) : Option Json := pyJsonParse r

/-- Strategy 2: first parseable fenced code block, in order of appearance. -/
def strategyFenced (r : String) : Option Json := tryParseEach (fencedBlocks r)

/-- Strategy 3: first parseable bracket-delimited substring. -/
def strategyBrackets (r : String) : Option Json := tryParseEach (bracketMatches r)

/-- Strategy 4: `json.loads` of the newline-stripped whole text. -/
def strategyCleaned (r : String) : Option Json := pyJsonParse (cleanedText r)

/-! ## The normalizer `_validate_question` (ai.py 483-544) and its helpers -/

/-- Model of `AIService._generate_default_answers` (ai.py 546-561). -/
def generate_default_answers (question_type : String) : List PyDict :=
  if question_type = "boolean" then
    [[("answer_text", .str "True"), ("is_correct", .bool true), ("position", .num 0)],
     [("answer_text", .str "False"), ("is_correct", .bool false), ("position", .num 1)]]
  else
    [[("answer_text", .str "Option A"), ("is_correct", .bool true), ("position", .num 0)],
     [("answer_text", .str "Option B"), ("is_correct", .bool false), ("position", .num 1)],
     [("answer_text", .str "Option C"), ("is_correct", .bool false), ("position", .num 2)],
     [("answer_text", .str "Option D"), ("is_correct", .bool false), ("position", .num 3)]]

/-- Model of `AIService._generate_placeholder_question` (ai.py 563-573). -/
def generate_placeholder_question (position : Int) : PyDict :=
  [("question_text", .str ("Default Question " ++ toString (position + 1))),
   ("question_type", .str "multiple_choice"),
   ("explanation", .str "A placeholder question generated due to AI generation failure."),
   ("position", .num (position : ℚ)),
   ("answers", .arr ((generate_default_answers "multiple_choice").map Json.obj))]

/-- One iteration of the answer-coercion loop (ai.py 505-513): a non-dict
entry becomes a stringified incorrect answer at its index, then the three
subfields get defaults. -/
def validateAnswer (i : Nat) (a : Json) : PyDict :=
  let base : PyDict :=
    match a with
    | .obj d => d
    | _ => [("answer_text", .str (pyStr a)), ("is_correct", .bool false), ("position", .num (i : ℚ))]
  let a1 := dictSetdefault base "answer_text" (.str ("Option " ++ toString (i + 1)))
  let a2 := dictSetdefault a1 "is_correct" (.bool false)
  dictSetdefault a2 "position" (.num (i : ℚ))

/-- The enumerated answer-coercion loop. -/
def validateAnswersLoop : Nat → List Json → List PyDict
  | _, [] => []
  | i, a :: rest => validateAnswer i a :: validateAnswersLoop (i + 1) rest

/-- Repair step of ai.py 515-518: when no answer is truthy-correct, mark
the first one correct (a no-op on an empty list). -/
def ensureCorrect (vs : List PyDict) : List PyDict :=
  if vs.any (fun a => pyTruthy ((dictGet? a "is_correct").getD .null)) then vs
  else
    match vs with
    | [] => []
    | a :: rest => dictSet a "is_correct" (.bool true) :: rest

/-- Boolean answer-count repair of ai.py 520-530: truncate to two; if fewer
than two remain, extend with incorrect `True` and `False` entries; then pop
from the end down to two. -/
def fixBoolean (vs : List PyDict) : List PyDict :=
  let vs2 := vs.take 2
  let vs3 :=
    if vs2.length < 2 then
      vs2 ++
        [[("answer_text", .str "True"), ("is_correct", .bool false), ("position", .num (vs2.length : ℚ))],
         [("answer_text", .str "False"), ("is_correct", .bool false), ("position", .num ((vs2.length + 1 : Nat) : ℚ))]]
    else vs2
  vs3.take 2

/-- One structural unfolding of the multiple-choice padding loop; the fuel
is only a structural-recursion device, and `4` iterations always suffice
because each one grows the list by one entry. -/
def padMCAux : Nat → List PyDict → List PyDict
  | 0, vs => vs
  | fuel + 1, vs =>
    if vs.length < 4 then
      padMCAux fuel (vs ++
        [[("answer_text", .str ("Option " ++ toString (vs.length + 1))),
          ("is_correct", .bool false), ("position", .num (vs.length : ℚ))]])
    else vs

/-- Multiple-choice padding loop of ai.py 534-539: append `Option N`
placeholders while fewer than four answers remain. -/
def padMCAnswers (vs : List PyDict) : List PyDict := padMCAux 4 vs

/-- Multiple-choice answer-count repair of ai.py 532-540. -/
def fixMultipleChoice (vs : List PyDict) : List PyDict := (padMCAnswers vs).take 4

/-- The `setdefault` chain of ai.py 491-493 filling `question_text`,
`explanation` and `position`. -/
def normalizedBase (q0 : PyDict) (position : Int) : PyDict :=
  let q1 := dictSetdefault q0 "question_text" (.str ("Question " ++ toString (position + 1)))
  let q2 := dictSetdefault q1 "explanation" (.str "")
  dictSetdefault q2 "position" (.num (position : ℚ))

/-- The type coercion of ai.py 496-497: lowercase, and anything other than
`boolean` or `multiple_choice` collapses to `multiple_choice`. -/
def coerceQuestionType (t : String) : String :=
  let tLower := pyLower t
  if tLower ∉ (["boolean", "multiple_choice"] : List String) then "multiple_choice" else tLower

/-- The answer repair pipeline of ai.py 504-540 applied to a present
answers list: coerce entries, ensure some answer is correct, then apply
the per-type count repair. -/
def repairedAnswers (qt : String) (ans : List Json) : List PyDict :=
  let validated := ensureCorrect (validateAnswersLoop 0 ans)
  if qt = "boolean" then fixBoolean validated
  else if qt = "multiple_choice" then fixMultipleChoice validated
  else validated

/-- The answers branch of ai.py 499-542: a present list is repaired, a
missing or non-list value is replaced by the type's default answer set. -/
def validateAnswersSection (qt : String) (q4 : PyDict) : PyDict :=
  match dictGet? q4 "answers" with
  | some (.arr ans) => dictSet q4 "answers" (.arr ((repairedAnswers qt ans).map Json.obj))
  | _ => dictSet q4 "answers" (.arr ((generate_default_answers qt).map Json.obj))

/-- Model of `AIService._validate_question` (ai.py 483-544).  The only way
it can raise is `question.get('question_type', 'multiple_choice').lower()`
(line 496) when the field holds a non-string; that is the `.error` case. -/
def validate_question (question : Json) (position : Int) : Except String PyDict :=
  match question with
  | .obj q0 =>
    let q3 := normalizedBase q0 position
    match (dictGet? q3 "question_type").getD (.str "multiple_choice") with
    | .str t0 =>
      let qt := coerceQuestionType t0
      .ok (validateAnswersSection qt (dictSet q3 "question_type" (.str qt)))
    | _ => .error "AttributeError: lower() on a non-string question_type"
  | _ => .ok (generate_placeholder_question position)

/-! ## The orchestration helpers `_validate_and_fix_questions` (ai.py
453-481) and `generate_quiz` (ai.py 64-192) -/

/-- List coercion of ai.py 462-463: a bare dict becomes a singleton list,
any other non-list becomes the empty list. -/
def coerceToQuestionList (questions_data : Json) : List Json :=
  match questions_data with
  | .arr l => l
  | .obj m => [.obj m]
  | _ => []

/-- The enumerated validation loop of ai.py 470-474; a falsy (empty)
result would be skipped, and an exception aborts the whole loop. -/
def validateQuestionsLoop : Nat → List Json → Except String (List PyDict)
  | _, [] => .ok []
  | i, q :: rest =>
    match validate_question q (i : Int) with
    | .error e => .error e
    | .ok f =>
      match validateQuestionsLoop (i + 1) rest with
      | .error e => .error e
      | .ok tail => .ok (if f.isEmpty then tail else f :: tail)

/-- One structural unfolding of the placeholder fill loop; the fuel is
only a structural-recursion device, and `expected` iterations always
suffice because each one grows the list by one entry. -/
def padPlaceholdersAux : Nat → Nat → List PyDict → List PyDict
  | 0, _, vs => vs
  | fuel + 1, expected, vs =>
    if vs.length < expected then
      padPlaceholdersAux fuel expected
        (vs ++ [generate_placeholder_question (vs.length : Int)])
    else vs

/-- Placeholder fill loop of ai.py 477-479. -/
def padPlaceholders (expected : Nat) (vs : List PyDict) : List PyDict :=
  padPlaceholdersAux expected expected vs

/-- Model of `AIService._validate_and_fix_questions` (ai.py 453-481). -/
def validate_and_fix_questions (questions_data : Json) (expected_count : Nat) :
    Except String (List PyDict) :=
  let qd := (coerceToQuestionList questions_data).take expected_count
  match validateQuestionsLoop 0 qd with
  | .error e => .error e
  | .ok valid => .ok (padPlaceholders expected_count valid)

/-- Model of `AIService._generate_content` (ai.py 399-408): a provider
failure (`none`, standing for a raised exception) is logged and collapsed
to the empty string. -/
def generate_content (providerResult : Option String) : String :=
  match providerResult with
  | some t => t
  | none => ""

/-- Python `isinstance(x, list)` on a parsed value. -/
def isPyList : Json → Bool
  | .arr _ => true
  | _ => false

/-- The parse-and-retry logic of ai.py 156-175: parse the first response;
when the result is falsy or not a list, parse the retry response instead
(whatever it turns out to be). -/
def orchestratorPayload (r1 r2 : String) : Json :=
  let qd1 := extract_and_parse_json r1
  if !(pyTruthy qd1) || !(isPyList qd1) then extract_and_parse_json r2 else qd1

/-- Model of `AIService.generate_quiz` (ai.py 64-192) for a call without
`document_ids` (so `document_content` and the chunk metadata are empty and
each validated question only gains an empty `document_sources` list).  The
two arguments are the generation provider's results for the primary and
the simplified retry prompt, `none` standing for a provider exception,
which `_generate_content` collapses to `""`.  The `try`/`except` around
the body (ai.py 151-192) turns any escaping exception into `[]`. -/
def generate_quiz (p1 p2 : Option String) (num_questions : Nat) : List PyDict :=
  let r1 := generate_content p1
  let r2 := generate_content p2
  match validate_and_fix_questions (orchestratorPayload r1 r2) num_questions with
  | .ok vs => vs.map (fun q => dictSet q "document_sources" (.arr []))
  | .error _ => []

/-! ## The content extractor `_extract_important_content` (ai.py 194-281) -/

/-- Test for `re.match` with the header pattern of ai.py 215: one or more
`#` then at least one whitespace character. -/
def matchHeaderRe (p : String) : Bool :=
  match p.toList with
  | '#' :: rest =>
    match rest.dropWhile (fun c => c = '#') with
    | c :: _ => isReWs c
    | [] => false
  | _ => false

/-- Python `str.isupper()` (ASCII model): at least one cased character and
no lowercase cased character. -/
def pyIsUpper (p : String) : Bool :=
  let cased := p.toList.filter Char.isAlpha
  !cased.isEmpty && cased.all Char.isUpper

/-- Python `p.endswith(':')`. -/
def endsWithColon (p : String) : Bool :=
  match p.toList.reverse with
  | ':' :: _ => true
  | _ => false

/-- Number of whitespace-separated words, Python `len(p.split())`. -/
def countWords : Bool → List Char → Nat
  | _, [] => 0
  | inWord, c :: cs =>
    if isPyStripWs c then countWords false cs
    else (if inWord then 0 else 1) + countWords true cs

/-- Whether `needle` starts `hay`. -/
def leadsWith : List Char → List Char → Bool
  | [], _ => true
  | _ :: _, [] => false
  | n :: ns, h :: hs => n = h && leadsWith ns hs

/-- Python substring containment `needle in hay`. -/
def containsSub (needle : List Char) : List Char → Bool
  | [] => needle.isEmpty
  | h :: hs => leadsWith needle (h :: hs) || containsSub needle hs

/-- The keyword list of ai.py 226-227. -/
def importantKeywords : List String :=
  ["important", "key", "significant", "critical", "essential",
   "summary", "conclusion", "result", "finding"]

/-- One line of the multiline bullet search of ai.py 233: optional leading
whitespace, one of the five literal marker characters (the source file
holds the mojibake sequence for a bullet, hence three of them), then a
whitespace character, which for the final line cannot be supplied by a
following newline. -/
def bulletLineTest (isLast : Bool) (line : String) : Bool :=
  match line.toList.dropWhile isReWs with
  | m :: r =>
    (m = '-' || m = '*' || m = 'â' || m = '€' || m = '¢') &&
      (match r with
       | c :: _ => isReWs c
       | [] => !isLast)
  | [] => false

/-- Whether some line of the paragraph matches the bullet pattern. -/
def anyBulletLine : List String → Bool
  | [] => false
  | [l] => bulletLineTest true l
  | l :: ls => bulletLineTest false l || anyBulletLine ls

/-- The importance score of a paragraph (ai.py 211-236).  Exact, as a
rational: the word-count term is `min(len(p.split()) / 10, 5)` under true
division. -/
def paragraphScore (p : String) : ℚ :=
  let headerPart : ℚ := if matchHeaderRe p || pyIsUpper p || endsWithColon p then 10 else 0
  let digitPart : ℚ := if p.toList.any isDig then 5 else 0
  let wordPart : ℚ := min ((countWords false p.toList : ℚ) / 10) 5
  let keywordPart : ℚ :=
    3 * ((importantKeywords.filter
      (fun k => containsSub k.toList (pyLower p).toList)).length : ℚ)
  let bulletPart : ℚ := if anyBulletLine (p.splitOn "\n") then 5 else 0
  headerPart + digitPart + wordPart + keywordPart + bulletPart

/-- Stable insertion placing `x` before the first entry with a strictly
smaller score. -/
def insertScoreDesc (x : String × ℚ) : List (String × ℚ) → List (String × ℚ)
  | [] => [x]
  | y :: ys => if y.2 ≤ x.2 then x :: y :: ys else y :: insertScoreDesc x ys

/-- Stable descending sort by score, Python `sort(key=..., reverse=True)`. -/
def sortByScoreDesc : List (String × ℚ) → List (String × ℚ)
  | [] => []
  | x :: xs => insertScoreDesc x (sortByScoreDesc xs)

/-- The greedy selection loop of ai.py 251-269, carrying the selected
paragraphs and the running length; the `break` is the early return.  The
float thresholds `0.95`/`0.9` of CPython are modelled as exact rationals. -/
def selectLoop (maxLen : Int) : List (String × ℚ) → List String → Int → List String × Int
  | [], sel, clen => (sel, clen)
  | (p, _) :: rest, sel, clen =>
    if p ∈ sel then selectLoop maxLen rest sel clen
    else if clen + p.length + 2 ≤ maxLen then
      selectLoop maxLen rest (sel ++ [p]) (clen + p.length + 2)
    else
      let next : List String × Int :=
        if (p.length : Int) > 100 then
          let summary := String.mk (p.toList.take 97) ++ "..."
          if (summary.length : Int) ≤ maxLen - clen then
            (sel ++ [summary], clen + summary.length + 2)
          else (sel, clen)
        else (sel, clen)
      if (next.2 : ℚ) ≥ (maxLen : ℚ) * (95 / 100) then next
      else selectLoop maxLen rest next.1 next.2

/-- The conclusion pass of ai.py 272-278. -/
def conclusionLoop (maxLen : Int) : List String → List String → Int → List String × Int
  | [], sel, clen => (sel, clen)
  | p :: rest, sel, clen =>
    if p ∈ sel then conclusionLoop maxLen rest sel clen
    else if clen + p.length + 2 ≤ maxLen then
      conclusionLoop maxLen rest (sel ++ [p]) (clen + p.length + 2)
    else conclusionLoop maxLen rest sel clen

/-- Model of `AIService._extract_important_content` (ai.py 194-281). -/
def extract_important_content (text : String) (max_length : Int) : String :=
  if (text.length : Int) ≤ max_length then text
  else
    let paragraphs := text.splitOn "\n\n"
    let scored := (paragraphs.filter (fun p => pyStrip p ≠ "")).map
      (fun p => (p, paragraphScore p))
    let sorted := sortByScoreDesc scored
    let start : List String × Int :=
      match paragraphs with
      | intro :: _ => if pyStrip intro ≠ "" then ([intro], (intro.length : Int) + 2) else ([], 0)
      | [] => ([], 0)
    let afterMain := selectLoop max_length sorted start.1 start.2
    let afterConcl :=
      if (afterMain.2 : ℚ) < (max_length : ℚ) * (9 / 10) ∧ paragraphs.length > 5 then
        conclusionLoop max_length (paragraphs.drop (paragraphs.length - 3))
          afterMain.1 afterMain.2
      else afterMain
    String.intercalate "\n\n" afterConcl.1

/-! ## The type changer `change_question_type` (ai.py 330-397) -/

/-- Model of `AIService.change_question_type` (ai.py 330-397).  The first
component counts generation-provider invocations; the second is the
outcome, `.error` standing for an exception escaping to the caller.  The
`ValueError` check (line 341) precedes everything; the prompt f-string
(line 351) reads `question_data['question_text']` before the provider
call, so a missing key raises there; everything inside the `try` that
raises (a non-dict parse result being item-assigned, a missing or, as an
approximation, non-integer `position`) lands in the fallback, which keeps
the original fields and replaces only `question_type` and `answers`.
`question_data` itself is never modified: the fallback operates on
`question_data.copy()`. -/
def change_question_type (question_data : PyDict) (new_type : String)
    (providerResponse : Option String) : Nat × Except String PyDict :=
  if new_type ∉ (["boolean", "multiple_choice"] : List String) then
    (0, .error "ValueError: Question type must be boolean or multiple_choice")
  else
    match dictGet? question_data "question_text" with
    | none => (0, .error "KeyError: question_text")
    | some qtext =>
      let response := generate_content providerResponse
      let fallback : PyDict :=
        dictSet (dictSet question_data "question_type" (.str new_type))
          "answers" (.arr ((generate_default_answers new_type).map Json.obj))
      let tryBody : Except String PyDict :=
        let nq0 := extract_and_parse_json response
        let nq1 := match nq0 with
          | .arr (x :: _) => x
          | j => j
        if pyTruthy nq1 then
          match nq1 with
          | .obj d0 =>
            (match dictGet? question_data "position" with
             | none => .error "KeyError: position"
             | some posv =>
               let d1 := dictSet d0 "position" posv
               let d2 := dictSet d1 "question_type" (.str new_type)
               let d3 :=
                 if (match dictGet? d2 "question_text" with
                     | none => true
                     | some v => !(pyTruthy v)) then
                   dictSet d2 "question_text" qtext
                 else d2
               match posv with
               | .num q => if q.den = 1 then validate_question (.obj d3) q.num
                           else .error "TypeError: unsupported position value"
               | _ => .error "TypeError: unsupported position value")
          | _ => .error "TypeError: item assignment on a non-dict"
        else .ok fallback
      match tryBody with
      | .ok d => (1, .ok d)
      | .error _ => (1, .ok fallback)

/-! ## The history / revert engine (routes/quizzes.py 147-186 and 702-800)

The quiz entity is modelled by its mutable columns (`QuizMeta`) plus its
question collection; a history row (`QuizSnapshot`) carries the action tag
and the optional `previous_state` JSON document, modelled as a typed
partial record (`QuizStoredState`) whose `Option` fields mirror the
`"key" in history.previous_state` checks of the route.  The history list
is kept newest first, i.e. in the `order_by(timestamp.desc())` order the
queries use, and snapshot ids are unique (they are database primary
keys). -/

/-- The `ActionType` enum of models/history.py. -/
inductive ActionType where
  | create | update | delete | regenerate | revert | add_quiz | remove_quiz | reorder
deriving DecidableEq, Repr

/-- The mutable quiz columns touched by update and revert. -/
structure QuizMeta where
  title : String
  topic : String
  description : String
  use_default_prompt : Bool
  custom_prompt : Option String
deriving DecidableEq, Repr

/-- A stored answer row inside a `questions` history document. -/
structure AnswerRow where
  answer_text : String
  is_correct : Bool
  position : Int
deriving DecidableEq, Repr

/-- A stored question row inside a `questions` history document, and also
a live question row of the quiz. -/
structure QuestionRow where
  question_text : String
  question_type : String
  explanation : String
  position : Int
  answers : List AnswerRow
deriving DecidableEq, Repr

/-- The `previous_state` JSON document of a quiz history row: a partial
record, each present key overwriting the entity on revert. -/
structure QuizStoredState where
  title : Option String
  topic : Option String
  description : Option String
  use_default_prompt : Option Bool
  custom_prompt : Option (Option String)
  questions : Option (List QuestionRow)
deriving DecidableEq, Repr

/-- One `QuizHistory` row. -/
structure QuizSnapshot where
  id : Nat
  action : ActionType
  previous_state : Option QuizStoredState
deriving DecidableEq, Repr

/-- A quiz with its questions and its history, newest snapshot first. -/
structure QuizDB where
  meta : QuizMeta
  questions : List QuestionRow
  history : List QuizSnapshot
deriving DecidableEq, Repr

/-- The five-field state capture used both by `update_quiz` (lines
161-167) and by `revert_quiz` for the REVERT snapshot (lines 737-743):
all metadata keys present, never the question collection. -/
def captureQuizState (m : QuizMeta) : QuizStoredState :=
  ⟨some m.title, some m.topic, some m.description,
   some m.use_default_prompt, some m.custom_prompt, none⟩

/-- The partial payload of the `update_quiz` route (`QuizUpdate` with
`exclude_unset=True`). -/
structure QuizUpdate where
  title : Option String
  topic : Option String
  description : Option String
  use_default_prompt : Option Bool
  custom_prompt : Option (Option String)
deriving DecidableEq, Repr

/-- The `setattr` loop of update_quiz (lines 169-172). -/
def applyQuizUpdate (m : QuizMeta) (u : QuizUpdate) : QuizMeta :=
  ⟨u.title.getD m.title, u.topic.getD m.topic, u.description.getD m.description,
   u.use_default_prompt.getD m.use_default_prompt, u.custom_prompt.getD m.custom_prompt⟩

/-- Model of the `update_quiz` route (quizzes.py 147-186): capture the full
current metadata as `previous_state`, apply the partial update, append an
UPDATE history row (`snapId` standing for the database-assigned id). -/
def update_quiz (db : QuizDB) (u : QuizUpdate) (snapId : Nat) : QuizDB :=
  ⟨applyQuizUpdate db.meta u, db.questions,
   ⟨snapId, .update, some (captureQuizState db.meta)⟩ :: db.history⟩

/-- Snapshot selection of revert_quiz (lines 717-734): a truthy
`history_id` selects the row with that id, rejected when its
`previous_state` is null; otherwise the most recent row with a non-null
`previous_state`. -/
def selectQuizSnapshot (db : QuizDB) (history_id : Option Nat) : Option QuizSnapshot :=
  if history_id.getD 0 ≠ 0 then
    match db.history.find? (fun s => s.id = history_id.getD 0) with
    | some s => if s.previous_state.isSome then some s else none
    | none => none
  else
    db.history.find? (fun s => s.previous_state.isSome)

/-- Question recreation of revert_quiz (lines 752-775): string question
types are uppercased, a missing explanation defaults to the empty string
(always present in this typed model), answers are rebuilt row by row. -/
def recreateQuestion (q : QuestionRow) : QuestionRow :=
  ⟨q.question_text, pyUpper q.question_type, q.explanation, q.position, q.answers⟩

/-- The mutation body of revert_quiz (lines 736-796): capture the current
metadata, replace the question collection when the stored document has a
`questions` key, overwrite each metadata field present in the stored
document, and prepend the REVERT history row. -/
def applyQuizRevert (db : QuizDB) (ps : QuizStoredState) (newSnapId : Nat) : QuizDB :=
  let current := captureQuizState db.meta
  let questions :=
    match ps.questions with
    | some qs => qs.map recreateQuestion
    | none => db.questions
  let meta : QuizMeta :=
    ⟨(ps.title).getD db.meta.title, (ps.topic).getD db.meta.topic,
     (ps.description).getD db.meta.description,
     (ps.use_default_prompt).getD db.meta.use_default_prompt,
     (ps.custom_prompt).getD db.meta.custom_prompt⟩
  ⟨meta, questions, ⟨newSnapId, .revert, some current⟩ :: db.history⟩

/-- Model of the `revert_quiz` route (quizzes.py 702-800).  `.error`
stands for the raised `HTTPException(404)`; the entity is untouched in
that case. -/
def revert_quiz (db : QuizDB) (history_id : Option Nat) (newSnapId : Nat) :
    Except String QuizDB :=
  match selectQuizSnapshot db history_id with
  | none => .error "NotFound"
  | some s =>
    match s.previous_state with
    | some ps => .ok (applyQuizRevert db ps newSnapId)
    | none => .error "NotFound"

/-! ## The question-entity history engine (services/question.py)

`QuestionService.update_question` (question.py 11-86) records the full
five-key capture of the question — scalar fields plus the answers with
their row ids — as `previous_state` before mutating;
`QuestionService.revert_question` (question.py 217-282) selects a
snapshot, captures the current state into a REVERT snapshot, restores
every stored field and recreates the answer rows from the stored
collection (the stored `id` key is not restored: the rows are new, with
database-assigned ids, modelled by the `freshIds` base).  The raised
`ValueError` is this service's NotFound signal, modelled as `.error`. -/

/-- The `QuestionType` enum of models/question.py; the database column is
enum-typed, so a live question always holds one of these. -/
inductive QuestionTypeEnum where
  | boolean | multiple_choice | open_ended
deriving DecidableEq, Repr

/-- The `.value` of a `QuestionType` member. -/
def QuestionTypeEnum.value : QuestionTypeEnum → String
  | .boolean => "boolean"
  | .multiple_choice => "multiple_choice"
  | .open_ended => "open_ended"

/-- The `QuestionType(value)` constructor: the member with that value, or
`none` for the `ValueError` on an unknown value. -/
def qtEnumOfValue? (s : String) : Option QuestionTypeEnum :=
  if s = "boolean" then some .boolean
  else if s = "multiple_choice" then some .multiple_choice
  else if s = "open_ended" then some .open_ended
  else none

/-- An answer row of the answers table, with its primary key. -/
structure AnswerFull where
  id : Nat
  answer_text : String
  is_correct : Bool
  position : Int
deriving DecidableEq, Repr

/-- The `previous_state` document of a question history row: all four
scalar fields (the type as its `.value` string) plus the answers with
their ids, exactly the capture built at question.py 25-38, 169-182 and
234-248. -/
structure QuestionStoredState where
  question_text : String
  question_type : String
  explanation : String
  position : Int
  answers : List AnswerFull
deriving DecidableEq, Repr

/-- One `QuestionHistory` row. -/
structure QuestionSnapshot where
  id : Nat
  action : ActionType
  previous_state : Option QuestionStoredState
deriving DecidableEq, Repr

/-- A question with its answers and its history, newest snapshot first. -/
structure QuestionDB where
  question_text : String
  question_type : QuestionTypeEnum
  explanation : String
  position : Int
  answers : List AnswerFull
  history : List QuestionSnapshot
deriving DecidableEq, Repr

/-- The full-state capture used for `previous_state` by update, delete
and revert on questions. -/
def captureQuestionState (q : QuestionDB) : QuestionStoredState :=
  ⟨q.question_text, q.question_type.value, q.explanation, q.position, q.answers⟩

/-- Answer rows built by a loop of `Answer(question_id=..., ...)` inserts:
the payload rows get consecutive database-assigned ids from `base`. -/
def attachAnswerIds : Nat → List AnswerRow → List AnswerFull
  | _, [] => []
  | base, r :: rs =>
    ⟨base, r.answer_text, r.is_correct, r.position⟩ :: attachAnswerIds (base + 1) rs

/-- The partial update payload of `QuestionService.update_question`
(`question_data` with `exclude_unset=True` from the route). -/
structure QuestionUpdatePayload where
  question_text : Option String
  explanation : Option String
  position : Option Int
  question_type : Option String
  answers : Option (List AnswerRow)
deriving DecidableEq, Repr

/-- Model of `QuestionService.update_question` (question.py 11-86):
capture the full current state as `previous_state`, apply each field
present in the payload — an unknown `question_type` value is silently
skipped (line 52-54), a present answers list replaces all answer rows
with fresh ids — and prepend an UPDATE history row. -/
def question_update (q : QuestionDB) (u : QuestionUpdatePayload)
    (snapId freshIds : Nat) : QuestionDB :=
  let prev := captureQuestionState q
  let qt :=
    match u.question_type with
    | some t =>
      match qtEnumOfValue? t with
      | some e => e
      | none => q.question_type
    | none => q.question_type
  ⟨(u.question_text).getD q.question_text, qt,
   (u.explanation).getD q.explanation, (u.position).getD q.position,
   (match u.answers with
    | some rows => attachAnswerIds freshIds rows
    | none => q.answers),
   ⟨snapId, .update, some prev⟩ :: q.history⟩

/-- Snapshot selection of `revert_question` (question.py 217-232): a
truthy `history_id` selects the row with that id whose `previous_state`
is non-null (the null check sits inside the query filter here, unlike the
quiz route); otherwise the most recent row with a non-null
`previous_state`. -/
def selectQuestionSnapshot (q : QuestionDB) (history_id : Option Nat) :
    Option QuestionSnapshot :=
  if history_id.getD 0 ≠ 0 then
    q.history.find? (fun s => s.id = history_id.getD 0 && s.previous_state.isSome)
  else
    q.history.find? (fun s => s.previous_state.isSome)

/-- The mutation body of `revert_question` (question.py 234-275) once a
snapshot with stored state `ps` and a decodable type `t` is selected:
restore every stored scalar field, recreate the answer rows from the
stored collection (fresh ids), and prepend the REVERT row carrying the
capture of the pre-revert state. -/
def applyQuestionRevert (q : QuestionDB) (ps : QuestionStoredState)
    (t : QuestionTypeEnum) (newSnapId freshIds : Nat) : QuestionDB :=
  ⟨ps.question_text, t, ps.explanation, ps.position,
   attachAnswerIds freshIds
     (ps.answers.map (fun a => (⟨a.answer_text, a.is_correct, a.position⟩ : AnswerRow))),
   ⟨newSnapId, .revert, some (captureQuestionState q)⟩ :: q.history⟩

/-- Model of `QuestionService.revert_question` (question.py 217-282).
`.error` stands for the raised `ValueError`, this service's NotFound
signal; since nothing is committed in that case, the entity is untouched.
`QuestionType(stored value)` raising on an undecodable value (never the
case for a state this system recorded) is the last error case. -/
def revert_question (q : QuestionDB) (history_id : Option Nat)
    (newSnapId freshIds : Nat) : Except String QuestionDB :=
  match selectQuestionSnapshot q history_id with
  | some s =>
    match s.previous_state with
    | some ps =>
      match qtEnumOfValue? ps.question_type with
      | some t => .ok (applyQuestionRevert q ps t newSnapId freshIds)
      | none => .error "ValueError: not a valid QuestionType"
    | none => .error "ValueError: No history found to revert to"
  | none => .error "ValueError: No history found to revert to"

/-! ## Observers used to state the claims -/

/-- The `question_type` field of a normalized question, when it is a string. -/
def qTypeStr (d : PyDict) : Option String :=
  match dictGet? d "question_type" with
  | some (.str t) => some t
  | _ => none

/-- The `position` field of a normalized question, when it is a number. -/
def posVal (d : PyDict) : Option ℚ :=
  match dictGet? d "position" with
  | some (.num q) => some q
  | _ => none

/-- Number of entries in the `answers` list of a normalized question. -/
def answersCount (d : PyDict) : Nat :=
  match dictGet? d "answers" with
  | some (.arr l) => l.length
  | _ => 0

/-- Number of truthy `is_correct` entries in a list of answer values. -/
def correctCountL (l : List Json) : Nat :=
  (l.filter (fun a =>
    match a with
    | .obj ad => pyTruthy ((dictGet? ad "is_correct").getD .null)
    | _ => false)).length

/-- Number of answers of a normalized question marked correct. -/
def correctCount (d : PyDict) : Nat :=
  match dictGet? d "answers" with
  | some (.arr l) => correctCountL l
  | _ => 0

/-- The `answer_text` of the answer at `i`, when it is a string. -/
def answerTextAt (d : PyDict) (i : Nat) : Option String :=
  match dictGet? d "answers" with
  | some (.arr l) =>
    match l.drop i with
    | .obj ad :: _ =>
      match dictGet? ad "answer_text" with
      | some (.str t) => some t
      | _ => none
    | _ => none
  | _ => none

/-- Whether the answer at `i` is marked correct (truthily). -/
def answerCorrectAt (d : PyDict) (i : Nat) : Bool :=
  match dictGet? d "answers" with
  | some (.arr l) =>
    match l.drop i with
    | .obj ad :: _ => pyTruthy ((dictGet? ad "is_correct").getD .null)
    | _ => false
  | _ => false

/-- Whether a raw question brings its own `position` key (in which case
`setdefault` keeps it). -/
def rawHasOwnPosition : Json → Bool
  | .obj q0 => (dictGet? q0 "position").isSome
  | _ => false

/-- Whether a raw question has an `answers` key holding a list (the branch
of ai.py 502-542); otherwise the default answer set is generated. -/
def rawHasAnswersList : Json → Bool
  | .obj q0 =>
    match dictGet? q0 "answers" with
    | some (.arr _) => true
    | _ => false
  | _ => false

/-- Whether the `question_type` field, if any, is a string, so that line
496's `.lower()` cannot raise. -/
def questionTypeFieldStringy : Json → Bool
  | .obj q0 =>
    match dictGet? q0 "question_type" with
    | none => true
    | some (.str _) => true
    | some _ => false
  | _ => true

/-- The `position` fields of a validated question list, in order. -/
def positionsOf (vs : List PyDict) : List (Option ℚ) := vs.map posVal

/-- Claim C1 as stated, at one input: the normalizer returns a question
with exactly one correct answer, two answers if boolean, four if
multiple-choice, and the supplied position. -/
def c1ClaimAt (raw : Json) (position : Int) : Bool :=
  match validate_question raw position with
  | .ok d =>
    (correctCount d == 1) &&
    (qTypeStr d != some "boolean" || answersCount d == 2) &&
    (qTypeStr d != some "multiple_choice" || answersCount d == 4) &&
    (posVal d == some ((position : Int) : ℚ))
  | .error _ => false

/-- Claim C3 as stated, at one orchestrator input: exactly `N` questions
with positions `0..N-1` in order. -/
def c3ClaimAt (p1 p2 : Option String) (N : Nat) : Bool :=
  let vs := generate_quiz p1 p2 N
  (vs.length == N) &&
  (positionsOf vs == (List.range N).map (fun j => some ((j : Nat) : ℚ)))

/-- The raw text of the C5 scenario: prose, then a json-fenced one-element
array holding a boolean question with a single correct `True` answer. -/
def c5RawText : String :=
  "Here is your quiz:\n```json\n[\x7b\"question_text\":\"Q\",\"question_type\":\"boolean\"," ++
  "\"answers\":[\x7b\"answer_text\":\"True\",\"is_correct\":true,\"position\":0\x7d]\x7d]\n```"

/-- The parsed element of the C5 scenario. -/
def c5Parsed : PyDict :=
  [("question_text", .str "Q"), ("question_type", .str "boolean"),
   ("answers", .arr [.obj [("answer_text", .str "True"), ("is_correct", .bool true),
                           ("position", .num 0)]])]

/-- What the normalizer actually produces on the C5 scenario. -/
def c5Normalized : PyDict :=
  [("question_text", .str "Q"), ("question_type", .str "boolean"),
   ("answers", .arr
     [.obj [("answer_text", .str "True"), ("is_correct", .bool true), ("position", .num 0)],
      .obj [("answer_text", .str "True"), ("is_correct", .bool false), ("position", .num 1)]]),
   ("explanation", .str ""), ("position", .num 0)]

/-- Claim C5 as stated: the scenario parses to a one-element array whose
normalization is boolean with two answers, `True` correct first and a
padded not-correct `False` second. -/
def c5ClaimHolds : Bool :=
  match extract_and_parse_json c5RawText with
  | .arr [q] =>
    match validate_question q 0 with
    | .ok d =>
      (qTypeStr d == some "boolean") && (answersCount d == 2) &&
      (answerTextAt d 0 == some "True") && answerCorrectAt d 0 &&
      (answerTextAt d 1 == some "False") && !(answerCorrectAt d 1)
    | .error _ => false
  | _ => false

/-- Claim C8 as stated, at one input: the orchestrator's result is
non-empty unless the provider returned empty or failed on every attempt. -/
def c8ClaimAt (p1 p2 : Option String) (N : Nat) : Bool :=
  (generate_content p1 == "" && generate_content p2 == "") ||
  !(generate_quiz p1 p2 N).isEmpty

/-! ## Library lemmas about the dict operations -/

theorem dictGet?_dictSet_self (d : PyDict) (k : String) (v : Json) :
    dictGet? (dictSet d k v) k = some v := by
  induction d with
  | nil => simp [dictSet, dictGet?]
  | cons hd tl ih =>
    obtain ⟨k', v'⟩ := hd
    by_cases h : k' = k <;> simp [dictSet, dictGet?, h, ih]

theorem dictGet?_dictSet_ne (d : PyDict) (k k' : String) (v : Json) (h : k ≠ k') :
    dictGet? (dictSet d k v) k' = dictGet? d k' := by
  induction d with
  | nil => simp [dictSet, dictGet?, h]
  | cons hd tl ih =>
    obtain ⟨k0, v0⟩ := hd
    by_cases h0 : k0 = k
    · subst h0; simp [dictSet, dictGet?, h]
    · simp [dictSet, dictGet?, h0, ih]

theorem dictGet?_append (d d' : PyDict) (k : String) :
    dictGet? (d ++ d') k = ((dictGet? d k).orElse (fun _ => dictGet? d' k)) := by
  induction d with
  | nil => simp [dictGet?, Option.orElse]
  | cons hd tl ih =>
    obtain ⟨k0, v0⟩ := hd
    by_cases h0 : k0 = k <;> simp [dictGet?, h0, ih, Option.orElse]

theorem dictGet?_dictSetdefault_self (d : PyDict) (k : String) (v : Json) :
    dictGet? (dictSetdefault d k v) k = some ((dictGet? d k).getD v) := by
  unfold dictSetdefault
  cases h : dictGet? d k with
  | some w => simp [h]
  | none => simp [dictGet?_append, h, Option.orElse, dictGet?]

theorem dictGet?_dictSetdefault_ne (d : PyDict) (k k' : String) (v : Json) (h : k ≠ k') :
    dictGet? (dictSetdefault d k v) k' = dictGet? d k' := by
  unfold dictSetdefault
  cases hg : dictGet? d k with
  | some w => rfl
  | none =>
    rw [dictGet?_append]
    have hone : dictGet? [(k, v)] k' = none := by simp [dictGet?, h]
    rw [hone]
    cases dictGet? d k' <;> rfl

theorem dictSet_ne_nil (d : PyDict) (k : String) (v : Json) : dictSet d k v ≠ [] := by
  cases d with
  | nil => simp [dictSet]
  | cons hd tl =>
    obtain ⟨k0, v0⟩ := hd
    by_cases h : k0 = k <;> simp [dictSet, h]

theorem normalizedBase_qtype (q0 : PyDict) (pos : Int) :
    dictGet? (normalizedBase q0 pos) "question_type" = dictGet? q0 "question_type" := by
  simp only [normalizedBase]
  rw [dictGet?_dictSetdefault_ne _ _ _ _ (by decide),
    dictGet?_dictSetdefault_ne _ _ _ _ (by decide),
    dictGet?_dictSetdefault_ne _ _ _ _ (by decide)]

theorem normalizedBase_answers (q0 : PyDict) (pos : Int) :
    dictGet? (normalizedBase q0 pos) "answers" = dictGet? q0 "answers" := by
  simp only [normalizedBase]
  rw [dictGet?_dictSetdefault_ne _ _ _ _ (by decide),
    dictGet?_dictSetdefault_ne _ _ _ _ (by decide),
    dictGet?_dictSetdefault_ne _ _ _ _ (by decide)]

theorem normalizedBase_position (q0 : PyDict) (pos : Int) :
    dictGet? (normalizedBase q0 pos) "position" =
      some ((dictGet? q0 "position").getD (.num (pos : ℚ))) := by
  simp only [normalizedBase]
  rw [dictGet?_dictSetdefault_self, dictGet?_dictSetdefault_ne _ _ _ _ (by decide),
    dictGet?_dictSetdefault_ne _ _ _ _ (by decide)]

/-! ## Claim C9 -/

/-- C9: for every text whose length is at most the `max_length` budget, the
important-content extractor `_extract_important_content` (ai.py 199-200)
returns the text unchanged. -/
theorem c9_extract_within_budget_is_identity (text : String) (max_length : Int)
    (h : (text.length : Int) ≤ max_length) :
    extract_important_content text max_length = text := by
  unfold extract_important_content
  simp [h]

/-- Witness for C9 at a concrete in-budget input. -/
theorem c9_extract_within_budget_is_identity_witness :
    (("small".length : Int) ≤ 10) ∧ extract_important_content "small" 10 = "small" :=
  ⟨by decide, c9_extract_within_budget_is_identity "small" 10 (by decide)⟩

/-! ## Claim C10 -/

/-- C10: for every `new_type` other than `boolean` or `multiple_choice`,
`change_question_type` (ai.py 341-342) raises `ValueError` with the
generation provider never invoked (the first component, counting provider
calls, is `0`), and — the embedding being functional and the result
carrying no dict — the input `question_data` is left unmodified; the
outcome is the same for every provider behavior `resp`. -/
theorem c10_change_question_type_rejects_invalid_type (qd : PyDict) (nt : String)
    (resp : Option String) (h : nt ∉ (["boolean", "multiple_choice"] : List String)) :
    change_question_type qd nt resp =
      (0, .error "ValueError: Question type must be boolean or multiple_choice") := by
  unfold change_question_type
  simp [h]

/-- Witness for C10 at a concrete invalid type. -/
theorem c10_change_question_type_rejects_invalid_type_witness :
    ("open_ended" ∉ (["boolean", "multiple_choice"] : List String)) ∧
      change_question_type [("question_text", .str "Q")] "open_ended" none =
        (0, .error "ValueError: Question type must be boolean or multiple_choice") :=
  ⟨by decide,
   c10_change_question_type_rejects_invalid_type [("question_text", .str "Q")]
     "open_ended" none (by decide)⟩

/-! ## Claim C4 -/

/-- C4: the response parser `_extract_and_parse_json` never raises — it is
a total function into `Json` because every `json.loads` attempt failure
(`none` in the model) is caught — and on every input string it returns the
value of the first succeeding strategy in the order: direct parse, fenced
code blocks in order of appearance, bracket-delimited substrings,
newline-stripped whole text; the empty list when all fail (the empty
input short-circuits to the same empty failure). -/
theorem c4_response_parser_cascade (r : String) :
    (r = "" → extract_and_parse_json r = .arr [])
    ∧ (∀ j, r ≠ "" → strategyDirect r = some j → extract_and_parse_json r = j)
    ∧ (∀ j, r ≠ "" → strategyDirect r = none → strategyFenced r = some j →
        extract_and_parse_json r = j)
    ∧ (∀ j, r ≠ "" → strategyDirect r = none → strategyFenced r = none →
        strategyBrackets r = some j → extract_and_parse_json r = j)
    ∧ (∀ j, r ≠ "" → strategyDirect r = none → strategyFenced r = none →
        strategyBrackets r = none → strategyCleaned r = some j →
        extract_and_parse_json r = j)
    ∧ (strategyDirect r = none → strategyFenced r = none → strategyBrackets r = none →
        strategyCleaned r = none → extract_and_parse_json r = .arr []) := by
  unfold extract_and_parse_json strategyDirect strategyFenced strategyBrackets strategyCleaned
  by_cases hr : r = ""
  · subst hr
    refine ⟨fun _ => by simp, ?_, ?_, ?_, ?_, ?_⟩ <;> intros <;> simp_all
  · refine ⟨fun h => absurd h hr, ?_, ?_, ?_, ?_, ?_⟩ <;> intros <;> simp_all

/-- Witness for C4: on concrete prose every strategy fails and the parser
returns the empty failure. -/
theorem c4_response_parser_cascade_witness :
    extract_and_parse_json "not json at all" = .arr [] :=
  (c4_response_parser_cascade "not json at all").2.2.2.2.2 rfl rfl rfl rfl

/-! ## Claim C5 -/

set_option maxRecDepth 16384 in
/-- C5 as stated is false on the code: the padded second answer of the
boolean question carries the text `True`, not `False`, because the repair
of ai.py 523-530 appends both a `True` and a `False` entry and then pops
the `False` one.  `c5ClaimHolds` is the claim's conjunction — parse
succeeds, boolean, two answers, `True` correct first, padded `False`
second — evaluated on the scenario's raw text. -/
theorem c5_counterexample : c5ClaimHolds = false := by rfl

set_option maxRecDepth 16384 in
/-- C5, amended: the scenario parses to the one-element array holding
`c5Parsed`, whose normalization at position 0 is `c5Normalized`: a boolean
question with exactly two answers, the first `True` and correct, the
second a padded answer that is not correct but carries the text `True`
(the `False` padding entry is popped again by ai.py 529-530). -/
theorem c5_scenario_amended :
    extract_and_parse_json c5RawText = .arr [.obj c5Parsed]
    ∧ validate_question (.obj c5Parsed) 0 = .ok c5Normalized
    ∧ qTypeStr c5Normalized = some "boolean"
    ∧ answersCount c5Normalized = 2
    ∧ answerTextAt c5Normalized 0 = some "True"
    ∧ answerCorrectAt c5Normalized 0 = true
    ∧ answerTextAt c5Normalized 1 = some "True"
    ∧ answerCorrectAt c5Normalized 1 = false :=
  ⟨rfl, rfl, rfl, rfl, rfl, rfl, rfl, rfl⟩

/-! ## Claim C2 -/

/-- C2 as stated is false on the code: the normalizer is not total.  On
the object `\x7b"question_type": 3\x7d` — a structured key-value object whose
`question_type` field holds an unexpected type — line 496's
`question.get('question_type', 'multiple_choice').lower()` raises
`AttributeError`, modelled as the `.error` outcome. -/
theorem c2_counterexample :
    validate_question (.obj [("question_type", .num 3)]) 0 =
      .error "AttributeError: lower() on a non-string question_type" := rfl

/-- C2, amended: the normalizer returns a question object — manufacturing
a placeholder when the input is not a structured key-value object — for
every input whose `question_type` field, when present, is a string; only a
present non-string `question_type` makes it raise. -/
theorem c2_normalizer_total_unless_bad_type (raw : Json) (position : Int)
    (h : questionTypeFieldStringy raw = true) :
    ∃ d, validate_question raw position = .ok d := by
  cases raw with
  | obj q0 =>
    simp only [validate_question, normalizedBase_qtype]
    cases hg : dictGet? q0 "question_type" with
    | none => exact ⟨_, rfl⟩
    | some v =>
      cases v with
      | str t => exact ⟨_, rfl⟩
      | null => simp [questionTypeFieldStringy, hg] at h
      | bool b => simp [questionTypeFieldStringy, hg] at h
      | num q => simp [questionTypeFieldStringy, hg] at h
      | arr l => simp [questionTypeFieldStringy, hg] at h
      | obj m => simp [questionTypeFieldStringy, hg] at h
  | null => exact ⟨_, rfl⟩
  | bool b => exact ⟨_, rfl⟩
  | num q => exact ⟨_, rfl⟩
  | str s => exact ⟨_, rfl⟩
  | arr l => exact ⟨_, rfl⟩

/-- Witness for C2 at a concrete benign object. -/
theorem c2_normalizer_total_unless_bad_type_witness :
    ∃ d, validate_question (.obj [("answers", .str "nope")]) 1 = .ok d :=
  c2_normalizer_total_unless_bad_type (.obj [("answers", .str "nope")]) 1 (by rfl)

/-! ## Normalizer shape lemmas (shared by C1, C3 and C8) -/

theorem fixBoolean_length (vs : List PyDict) : (fixBoolean vs).length = 2 := by
  simp only [fixBoolean]
  by_cases h : (vs.take 2).length < 2
  · rw [if_pos h]
    simp [List.length_take, List.length_append]
  · rw [if_neg h]
    simp only [List.length_take] at h ⊢
    omega

theorem padMCAux_length_ge (fuel : Nat) (vs : List PyDict) (h : 4 - vs.length ≤ fuel) :
    4 ≤ (padMCAux fuel vs).length := by
  induction fuel generalizing vs with
  | zero => simp only [padMCAux]; omega
  | succ fuel ih =>
    simp only [padMCAux]
    split
    · exact ih _ (by simp [List.length_append]; omega)
    · next hge => omega

theorem padMCAnswers_length_ge (vs : List PyDict) : 4 ≤ (padMCAnswers vs).length :=
  padMCAux_length_ge 4 vs (by omega)

theorem fixMultipleChoice_length (vs : List PyDict) : (fixMultipleChoice vs).length = 4 := by
  have h := padMCAnswers_length_ge vs
  simp [fixMultipleChoice, List.length_take]
  omega

theorem repairedAnswers_boolean_length (ans : List Json) :
    (repairedAnswers "boolean" ans).length = 2 := by
  simp [repairedAnswers, fixBoolean_length]

theorem repairedAnswers_mc_length (ans : List Json) :
    (repairedAnswers "multiple_choice" ans).length = 4 := by
  simp [repairedAnswers, fixMultipleChoice_length]

theorem coerceQuestionType_cases (t : String) :
    coerceQuestionType t = "boolean" ∨ coerceQuestionType t = "multiple_choice" := by
  simp only [coerceQuestionType]
  by_cases h : pyLower t ∈ (["boolean", "multiple_choice"] : List String)
  · rw [if_neg (not_not_intro h)]
    simp at h
    rcases h with h | h <;> simp [h]
  · rw [if_pos h]
    right
    rfl

theorem validateAnswersSection_get_other (qt : String) (q4 : PyDict) (k : String)
    (h : k ≠ "answers") :
    dictGet? (validateAnswersSection qt q4) k = dictGet? q4 k := by
  unfold validateAnswersSection
  cases hv : dictGet? q4 "answers" with
  | none => rw [dictGet?_dictSet_ne _ _ _ _ (Ne.symm h)]
  | some v => cases v <;> rw [dictGet?_dictSet_ne _ _ _ _ (Ne.symm h)]

theorem validateAnswersSection_get_answers (qt : String) (q4 : PyDict) :
    dictGet? (validateAnswersSection qt q4) "answers" =
      some (.arr (match dictGet? q4 "answers" with
        | some (.arr ans) => (repairedAnswers qt ans).map Json.obj
        | _ => (generate_default_answers qt).map Json.obj)) := by
  unfold validateAnswersSection
  cases hv : dictGet? q4 "answers" with
  | none => rw [dictGet?_dictSet_self]
  | some v => cases v <;> rw [dictGet?_dictSet_self]

theorem validate_question_obj_ok (q0 : PyDict) (pos : Int) (d : PyDict)
    (h : validate_question (.obj q0) pos = .ok d) :
    ∃ t0, (dictGet? q0 "question_type").getD (.str "multiple_choice") = .str t0 ∧
      d = validateAnswersSection (coerceQuestionType t0)
            (dictSet (normalizedBase q0 pos) "question_type"
              (.str (coerceQuestionType t0))) := by
  simp only [validate_question, normalizedBase_qtype] at h
  cases hv : (dictGet? q0 "question_type").getD (.str "multiple_choice") with
  | str t0 =>
    rw [hv] at h
    exact ⟨t0, rfl, (Except.ok.injEq _ _ ▸ h).symm⟩
  | null => rw [hv] at h; cases h
  | bool b => rw [hv] at h; cases h
  | num q => rw [hv] at h; cases h
  | arr l => rw [hv] at h; cases h
  | obj m => rw [hv] at h; cases h

theorem placeholder_qTypeStr (pos : Int) :
    qTypeStr (generate_placeholder_question pos) = some "multiple_choice" := rfl

theorem placeholder_answersCount (pos : Int) :
    answersCount (generate_placeholder_question pos) = 4 := rfl

theorem placeholder_posVal (pos : Int) :
    posVal (generate_placeholder_question pos) = some ((pos : Int) : ℚ) := rfl

theorem placeholder_correctCount (pos : Int) :
    correctCount (generate_placeholder_question pos) = 1 := rfl

theorem correctCountL_default (qt : String) :
    correctCountL ((generate_default_answers qt).map Json.obj) = 1 := by
  simp only [generate_default_answers]
  by_cases h : qt = "boolean" <;> simp only [h, if_true, if_false] <;> rfl

theorem default_answers_length (qt : String)
    (h : qt = "boolean" ∨ qt = "multiple_choice") :
    (generate_default_answers qt).length = if qt = "boolean" then 2 else 4 := by
  rcases h with h | h <;> simp [generate_default_answers, h]

theorem vas_qTypeStr (qt : String) (q3 : PyDict) :
    qTypeStr (validateAnswersSection qt (dictSet q3 "question_type" (.str qt))) = some qt := by
  unfold qTypeStr
  rw [validateAnswersSection_get_other _ _ _ (by decide), dictGet?_dictSet_self]

theorem answersCount_vas (qt : String) (q4 : PyDict) :
    answersCount (validateAnswersSection qt q4) =
      match dictGet? q4 "answers" with
      | some (.arr ans) => (repairedAnswers qt ans).length
      | _ => (generate_default_answers qt).length := by
  unfold answersCount
  rw [validateAnswersSection_get_answers]
  cases hv : dictGet? q4 "answers" with
  | none => simp
  | some v => cases v <;> simp

/-- The normalized question's `question_type` string, which is always one
of the two canonical values. -/
theorem validate_question_qTypeStr (raw : Json) (pos : Int) (d : PyDict)
    (h : validate_question raw pos = .ok d) :
    qTypeStr d = some "boolean" ∨ qTypeStr d = some "multiple_choice" := by
  cases raw with
  | obj q0 =>
    obtain ⟨t0, _, rfl⟩ := validate_question_obj_ok q0 pos d h
    rw [vas_qTypeStr]
    rcases coerceQuestionType_cases t0 with h | h <;> simp [h]
  | null => cases h; exact Or.inr (placeholder_qTypeStr pos)
  | bool b => cases h; exact Or.inr (placeholder_qTypeStr pos)
  | num q => cases h; exact Or.inr (placeholder_qTypeStr pos)
  | str s => cases h; exact Or.inr (placeholder_qTypeStr pos)
  | arr l => cases h; exact Or.inr (placeholder_qTypeStr pos)

/-- A boolean question has exactly two answers after normalization. -/
theorem validate_question_boolean_count (raw : Json) (pos : Int) (d : PyDict)
    (h : validate_question raw pos = .ok d) (hb : qTypeStr d = some "boolean") :
    answersCount d = 2 := by
  cases raw with
  | obj q0 =>
    obtain ⟨t0, _, rfl⟩ := validate_question_obj_ok q0 pos d h
    rw [vas_qTypeStr] at hb
    have hc : coerceQuestionType t0 = "boolean" := by simpa using hb
    rw [answersCount_vas]
    cases hv : dictGet? (dictSet (normalizedBase q0 pos) "question_type"
        (.str (coerceQuestionType t0))) "answers" with
    | none => rw [hc, default_answers_length "boolean" (Or.inl rfl)]; rfl
    | some v =>
      cases v <;>
        first
          | (rw [hc, default_answers_length "boolean" (Or.inl rfl)]; rfl)
          | (rw [hc]; exact repairedAnswers_boolean_length _)
  | null => cases h; rw [placeholder_qTypeStr] at hb; simp at hb
  | bool b => cases h; rw [placeholder_qTypeStr] at hb; simp at hb
  | num q => cases h; rw [placeholder_qTypeStr] at hb; simp at hb
  | str s => cases h; rw [placeholder_qTypeStr] at hb; simp at hb
  | arr l => cases h; rw [placeholder_qTypeStr] at hb; simp at hb

/-- A multiple-choice question has exactly four answers after
normalization. -/
theorem validate_question_mc_count (raw : Json) (pos : Int) (d : PyDict)
    (h : validate_question raw pos = .ok d) (hm : qTypeStr d = some "multiple_choice") :
    answersCount d = 4 := by
  cases raw with
  | obj q0 =>
    obtain ⟨t0, _, rfl⟩ := validate_question_obj_ok q0 pos d h
    rw [vas_qTypeStr] at hm
    have hc : coerceQuestionType t0 = "multiple_choice" := by simpa using hm
    rw [answersCount_vas]
    cases hv : dictGet? (dictSet (normalizedBase q0 pos) "question_type"
        (.str (coerceQuestionType t0))) "answers" with
    | none => rw [hc, default_answers_length "multiple_choice" (Or.inr rfl)]; rfl
    | some v =>
      cases v <;>
        first
          | (rw [hc, default_answers_length "multiple_choice" (Or.inr rfl)]; rfl)
          | (rw [hc]; exact repairedAnswers_mc_length _)
  | null => cases h; exact placeholder_answersCount pos
  | bool b => cases h; exact placeholder_answersCount pos
  | num q => cases h; exact placeholder_answersCount pos
  | str s => cases h; exact placeholder_answersCount pos
  | arr l => cases h; exact placeholder_answersCount pos

/-- When the raw question does not carry its own `position` key, the
normalized position is the supplied one. -/
theorem validate_question_posVal (raw : Json) (pos : Int) (d : PyDict)
    (h : validate_question raw pos = .ok d) (hp : rawHasOwnPosition raw = false) :
    posVal d = some ((pos : Int) : ℚ) := by
  cases raw with
  | obj q0 =>
    obtain ⟨t0, _, rfl⟩ := validate_question_obj_ok q0 pos d h
    have hnone : dictGet? q0 "position" = none := by
      simpa [rawHasOwnPosition, Option.isSome_iff_exists] using hp
    unfold posVal
    rw [validateAnswersSection_get_other _ _ _ (by decide),
      dictGet?_dictSet_ne _ _ _ _ (by decide), normalizedBase_position, hnone]
    rfl
  | null => cases h; exact placeholder_posVal pos
  | bool b => cases h; exact placeholder_posVal pos
  | num q => cases h; exact placeholder_posVal pos
  | str s => cases h; exact placeholder_posVal pos
  | arr l => cases h; exact placeholder_posVal pos

/-- When the raw question has no `answers` list (so the default answer set
is generated), exactly one answer is marked correct. -/
theorem validate_question_correctCount_default (raw : Json) (pos : Int) (d : PyDict)
    (h : validate_question raw pos = .ok d) (ha : rawHasAnswersList raw = false) :
    correctCount d = 1 := by
  cases raw with
  | obj q0 =>
    obtain ⟨t0, _, rfl⟩ := validate_question_obj_ok q0 pos d h
    unfold correctCount
    rw [validateAnswersSection_get_answers, dictGet?_dictSet_ne _ _ _ _ (by decide),
      normalizedBase_answers]
    cases hv : dictGet? q0 "answers" with
    | none => exact correctCountL_default _
    | some v =>
      cases v with
      | arr l => simp [rawHasAnswersList, hv] at ha
      | null => exact correctCountL_default _
      | bool b => exact correctCountL_default _
      | num q => exact correctCountL_default _
      | str s => exact correctCountL_default _
      | obj m => exact correctCountL_default _
  | null => cases h; exact placeholder_correctCount pos
  | bool b => cases h; exact placeholder_correctCount pos
  | num q => cases h; exact placeholder_correctCount pos
  | str s => cases h; exact placeholder_correctCount pos
  | arr l => cases h; exact placeholder_correctCount pos

/-! ## Claim C1 -/

/-- C1 as stated is false on the code.  `c1ClaimAt` is the claim's
conjunction at one input: exactly one correct answer, two answers for
boolean, four for multiple-choice, and the supplied position.  On the
object `\x7b"position": 5, "answers": []\x7d` at supplied position 0, the
normalizer keeps the object's own position 5 (`setdefault` on line 493
does not overwrite) and pads the empty answers list to four incorrect
options with no correct answer (line 516 only marks a correct answer when
the list is non-empty, before padding). -/
theorem c1_counterexample :
    c1ClaimAt (.obj [("position", .num 5), ("answers", .arr [])]) 0 = false := by rfl

/-- C1, amended: whenever the normalizer returns a result, the result's
type is `boolean` or `multiple_choice`; a boolean question has exactly 2
answers and a multiple-choice question exactly 4; the result's position
equals the supplied position whenever the input does not carry its own
`position` key (otherwise the input's value is kept); and exactly one
answer is correct whenever the input has no `answers` list — an input
that does supply an answers list may end up with zero or several correct
answers. -/
theorem c1_normalizer_invariants (raw : Json) (position : Int) (d : PyDict)
    (h : validate_question raw position = .ok d) :
    (qTypeStr d = some "boolean" ∨ qTypeStr d = some "multiple_choice")
    ∧ (qTypeStr d = some "boolean" → answersCount d = 2)
    ∧ (qTypeStr d = some "multiple_choice" → answersCount d = 4)
    ∧ (rawHasOwnPosition raw = false → posVal d = some ((position : Int) : ℚ))
    ∧ (rawHasAnswersList raw = false → correctCount d = 1) :=
  ⟨validate_question_qTypeStr _ _ _ h,
   fun hb => validate_question_boolean_count _ _ _ h hb,
   fun hm => validate_question_mc_count _ _ _ h hm,
   fun hp => validate_question_posVal _ _ _ h hp,
   fun ha => validate_question_correctCount_default _ _ _ h ha⟩

/-- Witness for C1 at the concrete non-object input `3`. -/
theorem c1_normalizer_invariants_witness :
    (qTypeStr (generate_placeholder_question 0) = some "boolean"
      ∨ qTypeStr (generate_placeholder_question 0) = some "multiple_choice")
    ∧ (qTypeStr (generate_placeholder_question 0) = some "boolean" →
        answersCount (generate_placeholder_question 0) = 2)
    ∧ (qTypeStr (generate_placeholder_question 0) = some "multiple_choice" →
        answersCount (generate_placeholder_question 0) = 4)
    ∧ (rawHasOwnPosition (.num 3) = false →
        posVal (generate_placeholder_question 0) = some ((0 : Int) : ℚ))
    ∧ (rawHasAnswersList (.num 3) = false →
        correctCount (generate_placeholder_question 0) = 1) :=
  c1_normalizer_invariants (.num 3) 0 (generate_placeholder_question 0) rfl

/-! ## Orchestrator lemmas (shared by C3 and C8) -/

theorem validateAnswersSection_ne_nil (qt : String) (q4 : PyDict) :
    validateAnswersSection qt q4 ≠ [] := by
  unfold validateAnswersSection
  cases hv : dictGet? q4 "answers" with
  | none => exact dictSet_ne_nil _ _ _
  | some v => cases v <;> exact dictSet_ne_nil _ _ _

theorem validate_question_ne_nil (raw : Json) (pos : Int) (d : PyDict)
    (h : validate_question raw pos = .ok d) : d ≠ [] := by
  cases raw with
  | obj q0 =>
    obtain ⟨t0, _, rfl⟩ := validate_question_obj_ok q0 pos d h
    exact validateAnswersSection_ne_nil _ _
  | null => cases h; simp [generate_placeholder_question]
  | bool b => cases h; simp [generate_placeholder_question]
  | num q => cases h; simp [generate_placeholder_question]
  | str s => cases h; simp [generate_placeholder_question]
  | arr l => cases h; simp [generate_placeholder_question]

theorem validateQuestionsLoop_ok (i : Nat) (l : List Json) (vs : List PyDict)
    (h : validateQuestionsLoop i l = .ok vs) :
    vs.length = l.length ∧
      ((∀ q ∈ l, rawHasOwnPosition q = false) →
        positionsOf vs = (List.range' i l.length).map (fun j => some ((j : Nat) : ℚ))) := by
  induction l generalizing i vs with
  | nil =>
    simp only [validateQuestionsLoop] at h
    cases h
    exact ⟨rfl, fun _ => rfl⟩
  | cons q rest ih =>
    simp only [validateQuestionsLoop] at h
    cases hq : validate_question q (i : Int) with
    | error e => rw [hq] at h; cases h
    | ok f =>
      rw [hq] at h
      cases ht : validateQuestionsLoop (i + 1) rest with
      | error e => rw [ht] at h; cases h
      | ok tail =>
        rw [ht] at h
        have hne : f ≠ [] := validate_question_ne_nil _ _ _ hq
        have hemp : f.isEmpty = false := by
          cases f with
          | nil => exact absurd rfl hne
          | cons a b => rfl
        simp only [hemp, Bool.false_eq_true, if_false] at h
        cases h
        obtain ⟨ihl, ihp⟩ := ih (i + 1) tail ht
        refine ⟨by simp [ihl], ?_⟩
        intro hall
        have hfpos : posVal f = some ((i : Nat) : ℚ) := by
          have := validate_question_posVal _ _ _ hq (hall q (by simp))
          simpa using this
        have hrest := ihp (fun x hx => hall x (by simp [hx]))
        simp only [positionsOf, List.map_cons] at hrest ⊢
        rw [List.length_cons, List.range'_succ, List.map_cons, hfpos, hrest]

theorem padPlaceholdersAux_length (fuel expected : Nat) (vs : List PyDict)
    (h1 : vs.length ≤ expected) (h2 : expected - vs.length ≤ fuel) :
    (padPlaceholdersAux fuel expected vs).length = expected := by
  induction fuel generalizing vs with
  | zero => simp only [padPlaceholdersAux]; omega
  | succ fuel ih =>
    simp only [padPlaceholdersAux]
    split
    · next hlt =>
      refine ih _ ?_ ?_
      · simp only [List.length_append, List.length_cons, List.length_nil]
        omega
      · simp only [List.length_append, List.length_cons, List.length_nil]
        omega
    · next hge => omega

theorem padPlaceholdersAux_positions (fuel expected : Nat) (vs : List PyDict)
    (h2 : expected - vs.length ≤ fuel) :
    positionsOf (padPlaceholdersAux fuel expected vs) =
      positionsOf vs ++
        (List.range' vs.length (expected - vs.length)).map (fun j => some ((j : Nat) : ℚ)) := by
  induction fuel generalizing vs with
  | zero =>
    simp only [padPlaceholdersAux]
    have : expected - vs.length = 0 := by omega
    simp [this]
  | succ fuel ih =>
    simp only [padPlaceholdersAux]
    split
    · next hlt =>
      rw [ih _ (by simp [List.length_append]; omega)]
      have hsplit : expected - vs.length = (expected - (vs.length + 1)) + 1 := by omega
      rw [hsplit, List.range'_succ]
      simp [positionsOf, placeholder_posVal, List.length_append]
    · next hge =>
      have : expected - vs.length = 0 := by omega
      simp [this]

theorem padPlaceholders_length (expected : Nat) (vs : List PyDict)
    (h : vs.length ≤ expected) : (padPlaceholders expected vs).length = expected :=
  padPlaceholdersAux_length expected expected vs h (by omega)

/-- The validated list of `_validate_and_fix_questions` always has exactly
the expected length. -/
theorem validate_and_fix_ok_length (qd : Json) (n : Nat) (vs : List PyDict)
    (h : validate_and_fix_questions qd n = .ok vs) : vs.length = n := by
  simp only [validate_and_fix_questions] at h
  cases hl : validateQuestionsLoop 0 ((coerceToQuestionList qd).take n) with
  | error e => rw [hl] at h; cases h
  | ok valid =>
    rw [hl] at h
    cases h
    have hlen := (validateQuestionsLoop_ok _ _ _ hl).1
    have hle : valid.length ≤ n := by
      rw [hlen]
      simp [List.length_take]
    exact padPlaceholders_length _ _ hle

/-! ## Claim C3 -/

/-- C3 as stated is false on the code.  `c3ClaimAt` is the claim's
conjunction at one orchestrator input: exactly `N` validated questions
with position fields `0..N-1` in order.  When the provider answers with
`[\x7b"position": 5\x7d]` and `N = 1`, the single validated question keeps its
own position 5 (line 493's `setdefault` does not overwrite), so the
positions are not `0..N-1`. -/
theorem c3_counterexample :
    c3ClaimAt (some "[\x7b\"position\": 5\x7d]") none 1 = false := by rfl

/-- C3, amended: whenever `_validate_and_fix_questions` succeeds it
returns exactly `N` questions, and their positions are `0..N-1` in order
provided no surviving provider entry carries its own `position` key
(placeholders and position-free entries are numbered by their index; an
entry that does carry a `position` field keeps that value instead). -/
theorem c3_validated_count_and_positions (qd : Json) (N : Nat) (vs : List PyDict)
    (h : validate_and_fix_questions qd N = .ok vs) :
    vs.length = N ∧
      ((∀ q ∈ (coerceToQuestionList qd).take N, rawHasOwnPosition q = false) →
        positionsOf vs = (List.range N).map (fun j => some ((j : Nat) : ℚ))) := by
  refine ⟨validate_and_fix_ok_length _ _ _ h, ?_⟩
  intro hall
  simp only [validate_and_fix_questions] at h
  cases hl : validateQuestionsLoop 0 ((coerceToQuestionList qd).take N) with
  | error e => rw [hl] at h; cases h
  | ok valid =>
    rw [hl] at h
    cases h
    obtain ⟨hlen, hpos⟩ := validateQuestionsLoop_ok _ _ _ hl
    have hle : valid.length ≤ N := by
      rw [hlen]
      simp [List.length_take]
    rw [padPlaceholders, padPlaceholdersAux_positions _ _ _ (by omega), hpos hall, hlen]
    rw [← List.map_append]
    have hle' : (List.take N (coerceToQuestionList qd)).length ≤ N := by
      simp [List.length_take]
    have hr := List.range'_append_1 0 ((List.take N (coerceToQuestionList qd)).length)
      (N - (List.take N (coerceToQuestionList qd)).length)
    rw [Nat.zero_add] at hr
    have hN : N - (List.take N (coerceToQuestionList qd)).length +
        (List.take N (coerceToQuestionList qd)).length = N := by omega
    rw [hr, hN, List.range_eq_range']

/-- Witness for C3: two requested questions from an empty provider array
give two placeholders at positions 0 and 1. -/
theorem c3_validated_count_and_positions_witness :
    (padPlaceholders 2 []).length = 2 ∧
      ((∀ q ∈ (coerceToQuestionList (.arr [])).take 2, rawHasOwnPosition q = false) →
        positionsOf (padPlaceholders 2 []) =
          (List.range 2).map (fun j => some ((j : Nat) : ℚ))) :=
  c3_validated_count_and_positions (.arr []) 2 (padPlaceholders 2 []) rfl

/-! ## Claim C8 -/

/-- C8 as stated is false on the code.  `c8ClaimAt` states the claim at
one input: the orchestrator's result is non-empty unless the provider
returned empty or failed on every attempt.  Here the provider is invoked
successfully and returns parseable JSON, `[\x7b"question_type": 3\x7d]`, yet
`generate_quiz` returns the empty list: `_validate_question` raises
`AttributeError` on the non-string type (ai.py 496), the broad `except`
of ai.py 190-192 catches it, and `[]` is returned. -/
theorem c8_counterexample :
    c8ClaimAt (some "[\x7b\"question_type\": 3\x7d]") none 1 = false := by rfl

/-- C8, amended: `generate_quiz` never raises (the body is wrapped in a
broad `except` returning `[]`), and it returns the empty list exactly when
validation raises inside that `try` (or `question_count = 0`); in
particular, when the provider returns empty or fails on every attempt —
`_generate_content` collapses provider exceptions to `""` — the
orchestrator still returns `question_count` placeholder questions rather
than an empty or failed result. -/
theorem c8_orchestrator_failure_modes (p1 p2 : Option String) (n : Nat) :
    (∀ vs, validate_and_fix_questions
        (orchestratorPayload (generate_content p1) (generate_content p2)) n = .ok vs →
        (generate_quiz p1 p2 n).length = n)
    ∧ (∀ e, validate_and_fix_questions
        (orchestratorPayload (generate_content p1) (generate_content p2)) n = .error e →
        generate_quiz p1 p2 n = [])
    ∧ (generate_content p1 = "" → generate_content p2 = "" →
        (generate_quiz p1 p2 n).length = n) := by
  refine ⟨?_, ?_, ?_⟩
  · intro vs h
    simp only [generate_quiz]
    rw [h]
    simp only [List.length_map]
    exact validate_and_fix_ok_length _ _ _ h
  · intro e h
    simp only [generate_quiz]
    rw [h]
  · intro h1 h2
    simp only [generate_quiz]
    rw [h1, h2]
    have hpay : orchestratorPayload "" "" = .arr [] := rfl
    rw [hpay]
    have hok : validate_and_fix_questions (.arr []) n = .ok (padPlaceholders n []) := by
      simp only [validate_and_fix_questions, coerceToQuestionList, List.take_nil,
        validateQuestionsLoop]
    rw [hok]
    simp only [List.length_map]
    exact padPlaceholders_length n [] (by simp)

/-- Witness for C8: a provider that fails on both attempts still yields
two questions. -/
theorem c8_orchestrator_failure_modes_witness :
    (generate_quiz none none 2).length = 2 :=
  (c8_orchestrator_failure_modes none none 2).2.2 rfl rfl

theorem qtEnumOfValue?_value (t : QuestionTypeEnum) : qtEnumOfValue? t.value = some t := by
  cases t <;> rfl

/-! ## Claim C6 -/

/-- C6: the revert round-trip, for both snapshot-recording entities.
Quiz side: for every starting state, every metadata mutation through the
update route (which records the full five-field previous state), and any
snapshot ids, reverting with no explicit snapshot id restores exactly the
fields present in the stored state — the five metadata fields go back to
S1 while the question collection, absent from the stored keys, stays
untouched — and prepends a snapshot with action REVERT whose
`previous_state` is the captured state of S2 (the route's five-field
denormalized view, quizzes.py 737-743).  Question side: for every
starting state, every partial mutation through
`QuestionService.update_question` (which records the full capture as
previous state), any snapshot ids and any database id bases, reverting
with no explicit snapshot id restores every stored field of S1 — the
four scalar fields exactly, and the answer collection recreated from the
stored rows with fresh database ids, the spec's delete-and-recreate child
replacement — and prepends a REVERT snapshot whose `previous_state` is
the full capture of S2. -/
theorem c6_revert_round_trip :
    (∀ (db : QuizDB) (u : QuizUpdate) (id1 id2 : Nat),
      revert_quiz (update_quiz db u id1) none id2 =
        .ok ⟨db.meta, db.questions,
          ⟨id2, .revert, some (captureQuizState (applyQuizUpdate db.meta u))⟩ ::
            ⟨id1, .update, some (captureQuizState db.meta)⟩ :: db.history⟩)
    ∧ (∀ (q : QuestionDB) (u : QuestionUpdatePayload) (id1 id2 f1 f2 : Nat),
      revert_question (question_update q u id1 f1) none id2 f2 =
        .ok ⟨q.question_text, q.question_type, q.explanation, q.position,
          attachAnswerIds f2
            (q.answers.map (fun a => (⟨a.answer_text, a.is_correct, a.position⟩ : AnswerRow))),
          ⟨id2, .revert, some (captureQuestionState (question_update q u id1 f1))⟩ ::
            ⟨id1, .update, some (captureQuestionState q)⟩ :: q.history⟩) := by
  refine ⟨fun db u id1 id2 => rfl, fun q u id1 id2 f1 f2 => ?_⟩
  obtain ⟨qt_, qty, qe, qp, qa, qh⟩ := q
  cases qty <;> rfl

/-! ## Claim C7 -/

/-- C7: snapshot selection and the NotFound path, for both revert
operations.  Quiz route (conjuncts 1-5): with a supplied (truthy)
`history_id`, the snapshot with that id belonging to the quiz is the one
reverted to, provided its `previous_state` is non-null; with no
`history_id`, the most recent snapshot (the history list is newest first)
whose `previous_state` is non-null is used; when the id is unknown, the
id's snapshot has a null `previous_state`, or no snapshot with a non-null
`previous_state` exists at all — in particular for a quiz with no
history — the call fails with NotFound (`HTTPException(404)`).  Question
service (conjuncts 6-9): with a supplied (truthy) `history_id`, the
snapshot with that id belonging to the question and a non-null
`previous_state` (the null check sits in the query filter,
question.py 220-224) is reverted to; with none, the most recent with a
non-null `previous_state`; when no such snapshot exists — an unknown id,
a null stored state, or an entity with no history at all — the call
fails with the service's NotFound signal,
`ValueError("No history found to revert to")`.  Every failure is an
`.error` and produces no new state, so the entity is left unchanged. -/
theorem c7_revert_selection (db : QuizDB) (qdb : QuestionDB) (nid fids : Nat) :
    (∀ h s ps, h ≠ 0 → db.history.find? (fun t => t.id = h) = some s →
      s.previous_state = some ps →
      revert_quiz db (some h) nid = .ok (applyQuizRevert db ps nid))
    ∧ (∀ s ps, db.history.find? (fun t => t.previous_state.isSome) = some s →
      s.previous_state = some ps →
      revert_quiz db none nid = .ok (applyQuizRevert db ps nid))
    ∧ (∀ h, h ≠ 0 → db.history.find? (fun t => t.id = h) = none →
      revert_quiz db (some h) nid = .error "NotFound")
    ∧ (∀ h s, h ≠ 0 → db.history.find? (fun t => t.id = h) = some s →
      s.previous_state = none → revert_quiz db (some h) nid = .error "NotFound")
    ∧ ((∀ s ∈ db.history, s.previous_state = none) →
      revert_quiz db none nid = .error "NotFound")
    ∧ (∀ h s ps t, h ≠ 0 →
      qdb.history.find? (fun u => u.id = h && u.previous_state.isSome) = some s →
      s.previous_state = some ps → qtEnumOfValue? ps.question_type = some t →
      revert_question qdb (some h) nid fids = .ok (applyQuestionRevert qdb ps t nid fids))
    ∧ (∀ s ps t, qdb.history.find? (fun u => u.previous_state.isSome) = some s →
      s.previous_state = some ps → qtEnumOfValue? ps.question_type = some t →
      revert_question qdb none nid fids = .ok (applyQuestionRevert qdb ps t nid fids))
    ∧ (∀ h, h ≠ 0 →
      qdb.history.find? (fun u => u.id = h && u.previous_state.isSome) = none →
      revert_question qdb (some h) nid fids =
        .error "ValueError: No history found to revert to")
    ∧ ((∀ s ∈ qdb.history, s.previous_state = none) →
      revert_question qdb none nid fids =
        .error "ValueError: No history found to revert to") := by
  refine ⟨?_, ?_, ?_, ?_, ?_, ?_, ?_, ?_, ?_⟩
  · intro h s ps hne hfind hprev
    simp only [revert_quiz, selectQuizSnapshot, Option.getD]
    rw [if_pos (by simpa using hne), hfind]
    simp [hprev]
  · intro s ps hfind hprev
    simp only [revert_quiz, selectQuizSnapshot, Option.getD]
    rw [if_neg (by simp), hfind]
    simp [hprev]
  · intro h hne hfind
    simp only [revert_quiz, selectQuizSnapshot, Option.getD]
    rw [if_pos (by simpa using hne), hfind]
  · intro h s hne hfind hprev
    simp only [revert_quiz, selectQuizSnapshot, Option.getD]
    rw [if_pos (by simpa using hne), hfind]
    simp [hprev]
  · intro hall
    have hfind : db.history.find? (fun t => t.previous_state.isSome) = none := by
      rw [List.find?_eq_none]
      intro s hs
      simp [hall s hs]
    simp only [revert_quiz, selectQuizSnapshot, Option.getD]
    rw [if_neg (by simp), hfind]
  · intro h s ps t hne hfind hprev ht
    simp only [revert_question, selectQuestionSnapshot, Option.getD]
    rw [if_pos (by simpa using hne), hfind]
    simp [hprev, ht]
  · intro s ps t hfind hprev ht
    simp only [revert_question, selectQuestionSnapshot, Option.getD]
    rw [if_neg (by simp), hfind]
    simp [hprev, ht]
  · intro h hne hfind
    simp only [revert_question, selectQuestionSnapshot, Option.getD]
    rw [if_pos (by simpa using hne), hfind]
  · intro hall
    have hfind : qdb.history.find? (fun u => u.previous_state.isSome) = none := by
      rw [List.find?_eq_none]
      intro s hs
      simp [hall s hs]
    simp only [revert_question, selectQuestionSnapshot, Option.getD]
    rw [if_neg (by simp), hfind]

/-- A two-snapshot history used to witness C7. -/
def c7StoredState : QuizStoredState :=
  ⟨some "old title", none, none, none, none, none⟩

/-- A quiz whose newest snapshot (id 2) stores `c7StoredState` and whose
oldest (id 1) has a null previous state. -/
def c7Db : QuizDB :=
  ⟨⟨"t", "o", "d", true, none⟩, [],
   [⟨2, .update, some c7StoredState⟩, ⟨1, .create, none⟩]⟩

/-- A quiz with history but no snapshot carrying a previous state. -/
def c7DbNoState : QuizDB :=
  ⟨⟨"t", "o", "d", true, none⟩, [], [⟨1, .create, none⟩]⟩

/-- A stored question state used to witness C7. -/
def c7QStored : QuestionStoredState :=
  ⟨"old text", "boolean", "why", 0, [⟨5, "True", true, 0⟩, ⟨6, "False", false, 1⟩]⟩

/-- A question whose newest snapshot (id 2) stores `c7QStored` and whose
oldest (id 1) has a null previous state. -/
def c7QDb : QuestionDB :=
  ⟨"now", .multiple_choice, "", 0, [⟨7, "A", true, 0⟩],
   [⟨2, .update, some c7QStored⟩, ⟨1, .create, none⟩]⟩

/-- A question with history but no snapshot carrying a previous state. -/
def c7QDbNoState : QuestionDB :=
  ⟨"now", .multiple_choice, "", 0, [], [⟨1, .create, none⟩]⟩

/-- Witness for C7 on concrete histories of both entities: revert by id,
revert to the most recent restorable snapshot, and the NotFound failure
for an entity with no restorable history. -/
theorem c7_revert_selection_witness :
    revert_quiz c7Db (some 2) 9 = .ok (applyQuizRevert c7Db c7StoredState 9)
    ∧ revert_quiz c7Db none 9 = .ok (applyQuizRevert c7Db c7StoredState 9)
    ∧ revert_quiz c7DbNoState none 9 = .error "NotFound"
    ∧ revert_question c7QDb (some 2) 9 11 =
        .ok (applyQuestionRevert c7QDb c7QStored .boolean 9 11)
    ∧ revert_question c7QDb none 9 11 =
        .ok (applyQuestionRevert c7QDb c7QStored .boolean 9 11)
    ∧ revert_question c7QDbNoState none 9 11 =
        .error "ValueError: No history found to revert to" :=
  ⟨(c7_revert_selection c7Db c7QDb 9 11).1 2 ⟨2, .update, some c7StoredState⟩ c7StoredState
      (by decide) rfl rfl,
   (c7_revert_selection c7Db c7QDb 9 11).2.1 ⟨2, .update, some c7StoredState⟩
      c7StoredState rfl rfl,
   (c7_revert_selection c7DbNoState c7QDbNoState 9 11).2.2.2.2.1 (by decide),
   (c7_revert_selection c7Db c7QDb 9 11).2.2.2.2.2.1 2 ⟨2, .update, some c7QStored⟩
      c7QStored .boolean (by decide) rfl rfl rfl,
   (c7_revert_selection c7Db c7QDb 9 11).2.2.2.2.2.2.1 ⟨2, .update, some c7QStored⟩
      c7QStored .boolean rfl rfl rfl,
   (c7_revert_selection c7DbNoState c7QDbNoState 9 11).2.2.2.2.2.2.2.2 (by decide)⟩

end Quizzy
